/-
  Verification of the work_orchestrator core against its specification.

  Shallow embedding of the repository's Python core:
    - src/work_orchestrator/core/tasks.py   (task graph, readiness)
    - src/work_orchestrator/core/agents.py  (slot pool, agent runs, monitor)
    - src/work_orchestrator/db/engine.py    (SQLite schema; note that init_db
      executes PRAGMA foreign_keys=ON, so the schema's REFERENCES, UNIQUE and
      CHECK constraints are enforced on every connection the program opens).

  Modelling conventions:
    - the SQLite store is a Lean structure of lists; rows are appended in
      insertion order, which also stands in for the created_at / started_at
      timestamps (the code only ever orders by them, and rows are inserted
      chronologically);
    - a Python function that can raise becomes Except Err _; an exception is
      raised before the enclosing db.commit(), so the error case returns no
      state (the uncommitted statements are rolled back when the connection
      closes);
    - external effects (the git worktree listing, filesystem path resolution,
      os.kill, the agent output file) are passed in as explicit parameters;
    - timestamps are opaque strings passed in as a `now` argument.
-/
import Mathlib

namespace WorkOrchestrator

/-- Row of the projects table (db/models.py Project). -/
structure Project where
  id : String
  name : String
  repo_path : String
  default_branch : String := "main"
  slack_channel : Option String := none
  deriving DecidableEq

/-- Row of the tasks table (db/models.py Task; the dependency list lives in
the separate task_dependencies table). -/
structure Task where
  id : String
  project_id : String
  title : String
  description : String := ""
  status : String := "todo"
  priority : Int := 3
  parent_task_id : Option String := none
  branch_name : Option String := none
  worktree_path : Option String := none
  pr_url : Option String := none
  updated_at : Option String := none
  completed_at : Option String := none
  deriving DecidableEq

/-- Row of the task_events audit table (task_id, event_type, old, new). -/
structure TaskEvent where
  task_id : String
  event_type : String
  old_value : Option String := none
  new_value : Option String := none
  deriving DecidableEq

/-- Row of the worktree_slots table (db/models.py WorktreeSlot). -/
structure WorktreeSlot where
  id : Nat
  project_id : String
  path : String
  label : String
  branch : Option String := none
  status : String := "available"
  current_task_id : Option String := none
  updated_at : Option String := none
  deriving DecidableEq

/-- Row of the agent_runs table (db/models.py AgentRun; max_budget is an
opaque pass-through to the external process and is omitted). -/
structure AgentRun where
  id : Nat
  task_id : String
  worktree_slot_id : Option Nat := none
  pid : Option Nat := none
  status : String := "running"
  instructions : String := ""
  model : String := "sonnet"
  output_file : Option String := none
  result_summary : Option String := none
  exit_code : Option Int := none
  completed_at : Option String := none
  deriving DecidableEq

/-- One entry of integrations/git.py worktree_list output. -/
structure WorktreeInfo where
  path : String
  branch : String
  head : String := ""
  is_bare : Bool := false
  deriving DecidableEq

/-- Domain and store-level errors. Python raises ValueError with an f-string
message; the data interpolated into the message is carried as fields. The
store-level constructors model sqlite3.IntegrityError raised by the schema
constraints, which init_db enforces via PRAGMA foreign_keys=ON. -/
inductive Err where
  | projectNotFound (project_id : String)
  | taskNotFound (task_id : String)
  | slotNotFound (slot_id : Nat)
  | slotNotFoundByLabel (label : String) (project_id : String)
  | slotOccupied (label : String) (occupant : Option String)
  | alreadyRunning (task_id : String) (pid : Option Nat)
  | notAssigned (task_id : String)
  | noAvailableSlots (project_id : String)
  | uniquePathViolation (path : String)
  | fkViolation (what : String)
  | pkViolation (what : String)
  | checkViolation (what : String)
  deriving DecidableEq

/-- The SQLite database state: one list per table, plus the AUTOINCREMENT
counters for worktree_slots and agent_runs. Lists hold rows in insertion
order. -/
structure Db where
  projects : List Project := []
  tasks : List Task := []
  deps : List (String × String) := []
  slots : List WorktreeSlot := []
  runs : List AgentRun := []
  events : List TaskEvent := []
  nextSlotId : Nat := 1
  nextRunId : Nat := 1
  deriving DecidableEq, Inhabited

/-! ## Row lookups and update primitives (SELECT / UPDATE ... WHERE id = ?) -/

/-- SELECT * FROM projects WHERE id = ? (core/projects.py get_project). -/
def get_project (st : Db) (project_id : String) : Option Project :=
  st.projects.find? (fun p => p.id == project_id)

/-- SELECT * FROM tasks WHERE id = ? (first row; id is the primary key). -/
def get_task (st : Db) (task_id : String) : Option Task :=
  st.tasks.find? (fun t => t.id == task_id)

/-- SELECT depends_on_task_id FROM task_dependencies WHERE task_id = ?,
in rowid (insertion) order. -/
def task_deps (st : Db) (task_id : String) : List String :=
  (st.deps.filter (fun d => d.1 == task_id)).map (fun d => d.2)

/-- UPDATE tasks SET ... WHERE id = ?. -/
def db_set_task (st : Db) (task_id : String) (f : Task → Task) : Db :=
  { st with tasks := st.tasks.map (fun t => if t.id == task_id then f t else t) }

/-- UPDATE worktree_slots SET ... WHERE id = ?. -/
def db_set_slot (st : Db) (slot_id : Nat) (f : WorktreeSlot → WorktreeSlot) : Db :=
  { st with slots := st.slots.map (fun s => if s.id == slot_id then f s else s) }

/-- UPDATE agent_runs SET ... WHERE id = ?. -/
def db_set_run (st : Db) (run_id : Nat) (f : AgentRun → AgentRun) : Db :=
  { st with runs := st.runs.map (fun r => if r.id == run_id then f r else r) }

/-- core/tasks.py _log_event: INSERT INTO task_events. -/
def log_event (st : Db) (task_id event_type : String)
    (old_value new_value : Option String) : Db :=
  { st with events := st.events ++ [{ task_id, event_type, old_value, new_value }] }

/-! ## Python string semantics

Python str operations are modelled directly over the character list of a
Lean string (ASCII readings of the case and whitespace tables). -/

/-- Python str.strip() with no argument: whitespace removed from both ends. -/
def py_strip (l : List Char) : List Char :=
  ((l.dropWhile Char.isWhitespace).reverse.dropWhile Char.isWhitespace).reverse

/-- Python str.lower(). -/
def py_lower (s : String) : String :=
  ⟨s.data.map Char.toLower⟩

/-- Python s[:n]: the first n characters. -/
def py_take (n : Nat) (s : String) : String :=
  ⟨s.data.take n⟩

/-- Lexicographic text order on character lists, standing in for the byte
order SQLite uses to sort TEXT columns. -/
def chars_le : List Char → List Char → Bool
  | [], _ => true
  | _ :: _, [] => false
  | a :: as, b :: bs => if a == b then chars_le as bs else decide (a.toNat < b.toNat)

/-- Whether the second list starts with the first. -/
def chars_start_with : List Char → List Char → Bool
  | [], _ => true
  | _ :: _, [] => false
  | a :: as, b :: bs => a == b && chars_start_with as bs

/-- Whether the second list has the first as a contiguous sublist: Python
`sub in s`. -/
def chars_have_sub (sub : List Char) : List Char → Bool
  | [] => sub.isEmpty
  | b :: bs => chars_start_with sub (b :: bs) || chars_have_sub sub bs

/-! ## core/tasks.py -/

/-- ASCII reading of the regex class \w used by slugify. -/
def is_word_char (c : Char) : Bool :=
  c.isAlphanum || c == '_'

/-- ASCII reading of the regex class \s used by slugify. -/
def is_space_char (c : Char) : Bool :=
  c == ' ' || c == '\t' || c == '\n' || c == '\r'

/-- Substituting every [\s_] character by a dash and then collapsing dash
runs is the composition of the last two re.sub calls of slugify. -/
def collapse_dashes : List Char → List Char
  | [] => []
  | [c] => [c]
  | c :: d :: rest =>
    if c == '-' && d == '-' then collapse_dashes (d :: rest)
    else c :: collapse_dashes (d :: rest)

/-- Python str.strip("-"). -/
def strip_dashes (l : List Char) : List Char :=
  ((l.dropWhile (fun c => c == '-')).reverse.dropWhile (fun c => c == '-')).reverse

/-- core/tasks.py slugify (the regex character classes are read over ASCII). -/
def slugify (title : String) : String :=
  let s := py_strip (py_lower title).data
  let s := s.filter (fun c => is_word_char c || is_space_char c || c == '-')
  let s := s.map (fun c => if is_space_char c || c == '_' then '-' else c)
  let s := collapse_dashes s
  ⟨(strip_dashes s).take 60⟩

/-- SELECT id FROM tasks WHERE id = ? returned a row. -/
def task_id_exists (st : Db) (i : String) : Bool :=
  st.tasks.any (fun t => t.id == i)

/-- core/tasks.py _unique_id: the base slug, or base-i for the least i ≥ 2
that is free. The unbounded while loop always terminates because the store
is finite; the search range tasks.length + 1 is enough by pigeonhole, so the
fallback arm is unreachable. -/
def unique_id (st : Db) (base : String) : String :=
  if ¬ task_id_exists st base then base
  else
    match (List.range (st.tasks.length + 1)).findSome? (fun k =>
      let candidate := base ++ "-" ++ toString (k + 2)
      if ¬ task_id_exists st candidate then some candidate else none) with
    | some candidate => candidate
    | none => base

/-- The dependency-insert loop of create_task. Each INSERT INTO
task_dependencies is checked against the composite primary key and, because
init_db runs PRAGMA foreign_keys=ON, against the foreign key
depends_on_task_id REFERENCES tasks(id). The new task row is already
inserted, so a self-reference would pass the foreign key. -/
def insert_deps (st : Db) (task_id : String) : List String → Except Err Db
  | [] => .ok st
  | d :: ds =>
    if st.deps.any (fun p => p.1 == task_id && p.2 == d) then
      .error (.pkViolation "task_dependencies")
    else if (get_task st d).isNone then
      .error (.fkViolation "task_dependencies.depends_on_task_id")
    else
      insert_deps { st with deps := st.deps ++ [(task_id, d)] } task_id ds

/-- core/tasks.py create_task. The INSERT INTO tasks is subject to the
schema's foreign keys on project_id and parent_task_id (enforced, see
engine.init_db); a raised constraint error aborts before the commit. A
Python depends_on of None and of [] behave identically, so it is a plain
list here. -/
def create_task (st : Db) (title : String) (project_id : String := "default")
    (description : String := "") (parent_task_id : Option String := none)
    (depends_on : List String := []) (pr_url : Option String := none)
    (priority : Int := 3) (now : String := "") : Except Err (Db × Task) :=
  let task_id := unique_id st (slugify title)
  let priority := max 0 (min 6 priority)
  if (get_project st project_id).isNone then
    .error (.fkViolation "tasks.project_id")
  else if (match parent_task_id with
           | some p => (get_task st p).isNone
           | none => false) then
    .error (.fkViolation "tasks.parent_task_id")
  else
    let t : Task := { id := task_id, project_id, title, description,
                      status := "todo", priority, parent_task_id, pr_url,
                      updated_at := some now }
    let st1 := { st with tasks := st.tasks ++ [t] }
    match insert_deps st1 task_id depends_on with
    | .error e => .error e
    | .ok st2 => .ok (log_event st2 task_id "created" none (some "todo"), t)

/-- core/tasks.py list_tasks. The SQL is
SELECT * FROM tasks WHERE project_id = ? [AND status = ?]
[AND parent_task_id = ? | AND parent_task_id IS NULL]
ORDER BY priority ASC, created_at ASC. An empty status string is falsy in
Python, so it adds no filter; a parent of None always adds IS NULL. Rows are
stored in created_at order, so the ORDER BY is a stable sort by priority. -/
def list_tasks (st : Db) (project_id : String) (status : Option String := none)
    (parent_task_id : Option String := none) : List Task :=
  let rows := st.tasks.filter (fun t =>
    t.project_id == project_id
    && (match status with
        | some s => s == "" || t.status == s
        | none => true)
    && (match parent_task_id with
        | some p => t.parent_task_id == some p
        | none => t.parent_task_id == none))
  List.insertionSort (fun a b => a.priority ≤ b.priority) rows

/-- The tasks.status CHECK constraint of the schema (after the migration
that admits review, see engine._run_migrations). -/
def allowed_task_status (s : String) : Bool :=
  s == "todo" || s == "in-progress" || s == "done" || s == "blocked" || s == "review"

/-- core/tasks.py update_task_status. Returns none and changes nothing for a
missing task; completed_at is stamped only on a transition into done. The
UPDATE is subject to the status CHECK constraint. -/
def update_task_status (st : Db) (task_id status : String) (now : String := "") :
    Except Err (Db × Option Task) :=
  match get_task st task_id with
  | none => .ok (st, none)
  | some task =>
    if ¬ allowed_task_status status then .error (.checkViolation "tasks.status")
    else
      let stamp := status == "done" && task.status != "done"
      let st1 := db_set_task st task_id (fun t =>
        { t with status := status,
                 completed_at := if stamp then some now else t.completed_at,
                 updated_at := some now })
      let st2 := log_event st1 task_id "status_changed" (some task.status) (some status)
      .ok (st2, get_task st2 task_id)

/-- Truth of the generator expression inside get_ready_tasks for one
dependency id: (dep := get_task(db, dep_id)) and dep.status == "done". -/
def dep_done (st : Db) (dep_id : String) : Bool :=
  match get_task st dep_id with
  | some dep => dep.status == "done"
  | none => false

/-- core/tasks.py get_ready_tasks. -/
def get_ready_tasks (st : Db) (project_id : String := "default") : List Task :=
  (list_tasks st project_id (some "todo")).filter (fun t =>
    let ds := task_deps st t.id
    if ds.isEmpty then true
    else ds.all (fun d => dep_done st d))

/-- Truth of the loop condition inside get_blocked_tasks for one dependency
id: dep and dep.status != "done" (a missing dependency row is skipped). -/
def dep_blocking (st : Db) (dep_id : String) : Bool :=
  match get_task st dep_id with
  | some dep => dep.status != "done"
  | none => false

/-- core/tasks.py get_blocked_tasks: a todo task with some dependency that
exists and is not done. -/
def get_blocked_tasks (st : Db) (project_id : String := "default") : List Task :=
  (list_tasks st project_id (some "todo")).filter (fun t =>
    let ds := task_deps st t.id
    ds.any (fun d => dep_blocking st d))

/-! ## core/agents.py — worktree slot pool -/

/-- core/agents.py register_worktree_slot: INSERT INTO worktree_slots.
The schema imposes UNIQUE(path) and, with foreign keys on, project_id
REFERENCES projects(id). The source re-selects the row by path; since the
path is unique that is the freshly inserted slot. -/
def register_worktree_slot (st : Db) (project_id path label : String)
    (branch : Option String := none) (now : String := "") :
    Except Err (Db × WorktreeSlot) :=
  if st.slots.any (fun s => s.path == path) then
    .error (.uniquePathViolation path)
  else if (get_project st project_id).isNone then
    .error (.fkViolation "worktree_slots.project_id")
  else
    let slot : WorktreeSlot :=
      { id := st.nextSlotId, project_id, path, label, branch,
        status := "available", current_task_id := none, updated_at := some now }
    .ok ({ st with slots := st.slots ++ [slot], nextSlotId := st.nextSlotId + 1 }, slot)

/-- Splits a character list on the path separator. -/
def split_slash : List Char → List (List Char)
  | [] => [[]]
  | c :: rest =>
    match split_slash rest with
    | [] => [[]]
    | g :: gs => if c == '/' then [] :: g :: gs else (c :: g) :: gs

/-- Python pathlib Path(p).name: the final path component (empty for a root
or empty path). -/
def path_name (p : String) : String :=
  ⟨((split_slash p.data).filter (fun s => ¬ s.isEmpty)).getLastD []⟩

/-- The already-registered set of discover_and_register_worktrees:
str(Path(r.path).resolve()) over the project's slots. Filesystem path
resolution is the explicit parameter res. -/
def resolved_slot_paths (res : String → String) (st : Db) (project_id : String) :
    List String :=
  (st.slots.filter (fun s => s.project_id == project_id)).map (fun s => res s.path)

/-- The registration loop of discover_and_register_worktrees. Bare worktrees
are skipped; a worktree whose resolved path is already registered is
skipped; the rest are registered with the directory basename as label
(falling back to the project id for an empty basename, Python
`Path(wt.path).name or project_id`). The existing-path set is computed once
before the loop and not refreshed inside it, as in the source. -/
def discover_loop (res : String → String) (project_id now : String)
    (existing_paths : List String) :
    Db → List WorktreeInfo → Except Err (Db × List WorktreeSlot)
  | st, [] => .ok (st, [])
  | st, wt :: rest =>
    if wt.is_bare then discover_loop res project_id now existing_paths st rest
    else
      let resolved := res wt.path
      if existing_paths.contains resolved then
        discover_loop res project_id now existing_paths st rest
      else
        let nm := path_name wt.path
        let label := if nm == "" then project_id else nm
        match register_worktree_slot st project_id resolved label (some wt.branch) now with
        | .error e => .error e
        | .ok (st1, slot) =>
          match discover_loop res project_id now existing_paths st1 rest with
          | .error e => .error e
          | .ok (st2, regs) => .ok (st2, slot :: regs)

/-- core/agents.py discover_and_register_worktrees. The git worktree listing
for the repository (integrations/git.py worktree_list) is the parameter
git_worktrees; filesystem resolution is res. -/
def discover_and_register_worktrees (res : String → String) (st : Db)
    (project_id : String) (git_worktrees : List WorktreeInfo) (now : String := "") :
    Except Err (Db × List WorktreeSlot) :=
  match get_project st project_id with
  | none => .error (.projectNotFound project_id)
  | some _ =>
    discover_loop res project_id now (resolved_slot_paths res st project_id)
      st git_worktrees

/-- core/agents.py list_worktree_slots:
SELECT * FROM worktree_slots WHERE project_id = ? [AND status = ?]
ORDER BY label (empty status string is falsy and adds no filter; rows are
stored in rowid order, so ORDER BY label is a stable sort by label). -/
def list_worktree_slots (st : Db) (project_id : String)
    (status : Option String := none) : List WorktreeSlot :=
  let rows := st.slots.filter (fun s =>
    s.project_id == project_id
    && (match status with
        | some x => x == "" || s.status == x
        | none => true))
  List.insertionSort (fun a b => chars_le a.label.data b.label.data = true) rows

/-- SELECT * FROM worktree_slots WHERE id = ?. -/
def get_worktree_slot (st : Db) (slot_id : Nat) : Option WorktreeSlot :=
  st.slots.find? (fun s => s.id == slot_id)

/-- SELECT * FROM worktree_slots WHERE project_id = ? AND label = ?
(fetchone: first row in rowid order). -/
def get_slot_by_label (st : Db) (project_id label : String) : Option WorktreeSlot :=
  st.slots.find? (fun s => s.project_id == project_id && s.label == label)

/-- core/agents.py assign_task_to_slot. Raises before any UPDATE when the
slot is missing, the slot is occupied (the error names the occupant) or the
task is missing; on success marks the slot occupied, records the occupying
task and copies the slot's path and branch onto the task, then logs an
event. The returned slot is the re-fetched row, whose value is written out
explicitly here. -/
def assign_task_to_slot (st : Db) (task_id : String) (slot_id : Nat)
    (now : String := "") : Except Err (Db × WorktreeSlot) :=
  match get_worktree_slot st slot_id with
  | none => .error (.slotNotFound slot_id)
  | some slot =>
    if slot.status == "occupied" then
      .error (.slotOccupied slot.label slot.current_task_id)
    else
      match get_task st task_id with
      | none => .error (.taskNotFound task_id)
      | some _ =>
        let st1 := db_set_slot st slot_id (fun s =>
          { s with status := "occupied", current_task_id := some task_id,
                   updated_at := some now })
        let st2 := db_set_task st1 task_id (fun t =>
          { t with worktree_path := some slot.path, branch_name := slot.branch,
                   updated_at := some now })
        let st3 := log_event st2 task_id "assigned_to_slot" none (some slot.label)
        let slot1 : WorktreeSlot :=
          { slot with status := "occupied", current_task_id := some task_id,
                      updated_at := some now }
        .ok (st3, slot1)

/-- core/agents.py release_slot: marks a slot available and clears its
occupant; raises only when the slot row is missing. -/
def release_slot (st : Db) (slot_id : Nat) (now : String := "") :
    Except Err (Db × WorktreeSlot) :=
  match get_worktree_slot st slot_id with
  | none => .error (.slotNotFound slot_id)
  | some slot =>
    let st1 := db_set_slot st slot_id (fun s =>
      { s with status := "available", current_task_id := none,
               updated_at := some now })
    let slot1 : WorktreeSlot :=
      { slot with status := "available", current_task_id := none,
                  updated_at := some now }
    .ok (st1, slot1)

/-! ## core/agents.py — agent launching, cancellation, monitoring -/

/-- SELECT * FROM agent_runs WHERE id = ?. -/
def get_agent_run (st : Db) (run_id : Nat) : Option AgentRun :=
  st.runs.find? (fun r => r.id == run_id)

/-- How launch_agent obtained the process id. Background mode keeps the
Popen pid directly (and registers the live handle); visible mode polls for
the pid hand-off file written by the generated script (bounded, 50 × 100ms)
and the parameter is that poll's outcome: the parsed pid, or none when the
file never appeared. -/
inductive LaunchMode where
  | background (new_pid : Nat)
  | terminal (pid_file : Option Nat)
  deriving DecidableEq

/-- core/agents.py _launch_in_terminal, reduced to its result: the pid read
from the hand-off file, or the fallback sentinel 0 (with a logged warning)
when the file never appeared within the bound. -/
def launch_in_terminal (pid_file : Option Nat) : Nat :=
  match pid_file with
  | some p => p
  | none => 0

/-- Python f-string text for an optional pid. -/
def pid_str (pid : Option Nat) : String :=
  match pid with
  | some p => toString p
  | none => "None"

/-- core/agents.py launch_agent. The prompt built by build_agent_prompt only
reads the store (its best-effort memory lookup swallows failures), so it is
elided; the output file path (built from output_dir and a timestamp) is the
parameter output_file. The registry is the module-level _active_processes
table, modelled as the list of pids holding live handles; only background
launches add to it. The source ends by re-selecting the running row by pid,
which is the row just inserted (pids of live processes are not shared by
two simultaneously running rows); the inserted row is returned directly. -/
def launch_agent (st : Db) (registry : List Nat) (task_id instructions : String)
    (output_file : String) (model : String := "sonnet")
    (mode : LaunchMode := .background 0) (now : String := "") :
    Except Err (Db × List Nat × AgentRun) :=
  match get_task st task_id with
  | none => .error (.taskNotFound task_id)
  | some task =>
    match st.slots.find? (fun s => s.current_task_id == some task_id) with
    | none => .error (.notAssigned task_id)
    | some slot =>
      match st.runs.find? (fun r => r.task_id == task_id && r.status == "running") with
      | some existing => .error (.alreadyRunning task_id existing.pid)
      | none =>
        let pid := match mode with
          | .background p => p
          | .terminal pf => launch_in_terminal pf
        let registry1 := match mode with
          | .background p => if registry.contains p then registry else p :: registry
          | .terminal _ => registry
        match (if task.status == "todo"
               then update_task_status st task_id "in-progress" now
               else .ok (st, some task)) with
        | .error e => .error e
        | .ok (st1, _) =>
          let run : AgentRun :=
            { id := st1.nextRunId, task_id, worktree_slot_id := some slot.id,
              pid := some pid, status := "running", instructions, model,
              output_file := some output_file }
          let st2 := { st1 with runs := st1.runs ++ [run],
                                nextRunId := st1.nextRunId + 1 }
          let st3 := log_event st2 task_id "agent_launched" none
            (some ("PID " ++ toString pid))
          .ok (st3, registry1, run)

/-- core/agents.py delegate_task: validates the task, fails fast on a
duplicate running agent (naming its pid), selects the slot (a requested
label must exist and be available; otherwise the first available slot of
the project in label order), assigns, and launches. Python truthiness makes
an empty project_id or slot_label behave like None. The best-effort .mcp.json
resolution only reads the filesystem and is elided. -/
def delegate_task (st : Db) (registry : List Nat)
    (task_id instructions output_file : String)
    (project_id : Option String := none) (model : String := "sonnet")
    (slot_label : Option String := none) (mode : LaunchMode := .background 0)
    (now : String := "") : Except Err (Db × List Nat × AgentRun) :=
  match get_task st task_id with
  | none => .error (.taskNotFound task_id)
  | some task =>
    let pid := match project_id with
      | some p => if p == "" then task.project_id else p
      | none => task.project_id
    match st.runs.find? (fun r => r.task_id == task_id && r.status == "running") with
    | some existing => .error (.alreadyRunning task_id existing.pid)
    | none =>
      let want_label := match slot_label with
        | some l => if l == "" then none else some l
        | none => none
      let chosen : Except Err WorktreeSlot :=
        match want_label with
        | some l =>
          match get_slot_by_label st pid l with
          | none => .error (.slotNotFoundByLabel l pid)
          | some slot =>
            if slot.status == "occupied" then
              .error (.slotOccupied slot.label slot.current_task_id)
            else .ok slot
        | none =>
          match list_worktree_slots st pid (some "available") with
          | [] => .error (.noAvailableSlots pid)
          | s :: _ => .ok s
      match chosen with
      | .error e => .error e
      | .ok slot =>
        match assign_task_to_slot st task_id slot.id now with
        | .error e => .error e
        | .ok (st1, _) =>
          launch_agent st1 registry task_id instructions output_file model mode now

/-- core/agents.py cancel_agent. The most recent running run for the task is
the last matching row (rows are stored in started_at order). Python
`if run.pid:` is falsy both for NULL and for the terminal-fallback pid 0, so
only a nonzero recorded pid receives the SIGTERM (a ProcessLookupError from
an already-exited process is swallowed) and is popped from the registry. The
third result component counts termination signals sent. A missing slot row
would make release_slot raise, modelled by the error case. -/
def cancel_agent (st : Db) (registry : List Nat) (task_id : String)
    (now : String := "") :
    Except Err (Db × List Nat × Nat × Option AgentRun) :=
  match (st.runs.filter (fun r =>
      r.task_id == task_id && r.status == "running")).getLast? with
  | none => .ok (st, registry, 0, none)
  | some run =>
    let send := match run.pid with
      | some p => p != 0
      | none => false
    let signals := if send then 1 else 0
    let registry1 := if send then registry.erase (run.pid.getD 0) else registry
    let st1 := db_set_run st run.id (fun r =>
      { r with status := "cancelled", completed_at := some now })
    let st2 := log_event st1 task_id "agent_cancelled"
      (some ("PID " ++ pid_str run.pid)) none
    match run.worktree_slot_id with
    | some sid =>
      match release_slot st2 sid now with
      | .error e => .error e
      | .ok (st3, _) => .ok (st3, registry1, signals, get_agent_run st3 run.id)
    | none => .ok (st2, registry1, signals, get_agent_run st2 run.id)

/-! ## core/agents.py — AgentMonitor -/

/-- The observable state of the operating system's process table, as seen
through os.kill probes: the set of live pids, and those live pids the
orchestrator is not permitted to signal. -/
structure OsView where
  alive : List Nat := []
  restricted : List Nat := []
  deriving DecidableEq

/-- Outcome of os.kill(pid, 0). -/
inductive KillRes where
  | ok
  | noSuchProcess
  | permDenied
  deriving DecidableEq

/-- POSIX semantics of os.kill(pid, 0): pid 0 addresses the calling
process's own process group, which always exists, so the probe succeeds;
otherwise the probe succeeds, raises ProcessLookupError, or raises
PermissionError according to the process table. -/
def os_kill_check (os : OsView) (pid : Nat) : KillRes :=
  if pid == 0 then .ok
  else if os.alive.contains pid then
    (if os.restricted.contains pid then .permDenied else .ok)
  else .noSuchProcess

/-- core/agents.py AgentMonitor._is_pid_alive, instrumented with the number
of probe signals issued (second component): a None pid returns False with
no probe; any other pid is probed once with os.kill(pid, 0), and
PermissionError counts as alive. -/
def is_pid_alive (os : OsView) : Option Nat → Bool × Nat
  | none => (false, 0)
  | some pid =>
    match os_kill_check os pid with
    | .ok => (true, 1)
    | .noSuchProcess => (false, 1)
    | .permDenied => (true, 1)

/-- What json.loads produced from the output file's text. -/
inductive PyJson where
  | dict (result : Option String)
  | nonDict (desc : String)
  deriving DecidableEq

/-- What AgentMonitor._handle_completion observes when it reads the run's
output file: the file is absent (output_file NULL or the path missing), the
read raises, or it yields text together with the json.loads outcome (none
for a JSONDecodeError; nonDict carries the AttributeError text raised by
data.get on a non-object). -/
inductive OutputObs where
  | missing
  | unreadable (msg : String)
  | readable (content : String) (parsed : Option PyJson)
  deriving DecidableEq

/-- Python `"error" in content.lower()`. -/
def has_error_marker (content : String) : Bool :=
  chars_have_sub "error".data (py_lower content).data

/-- `if exit_code is None: exit_code = d`. -/
def or_default (exit_code : Option Int) (d : Int) : Option Int :=
  match exit_code with
  | none => some d
  | some n => some n

/-- The summary/exit-code computation of _handle_completion: a structured
object's result field (defaulting to the first 500 characters) assumes
success when no exit code is known; unparseable text keeps its first 500
characters and infers failure from a literal error marker; empty text and a
failed read synthesize a summary and infer failure; an absent file leaves
both untouched. -/
def completion_outcome (exit_code : Option Int) (obs : OutputObs) :
    Option String × Option Int :=
  match obs with
  | .missing => (none, exit_code)
  | .unreadable msg => (some ("Error reading output: " ++ msg), or_default exit_code 1)
  | .readable content parsed =>
    if (py_strip content.data).isEmpty then
      (some "(empty output)", or_default exit_code 1)
    else
      match parsed with
      | some (.dict r) => (some (r.getD (py_take 500 content)), or_default exit_code 0)
      | some (.nonDict desc) =>
        (some ("Error reading output: " ++ desc), or_default exit_code 1)
      | none =>
        (some (py_take 500 content),
         or_default exit_code (if has_error_marker content then 1 else 0))

/-- Python `if exit_code and exit_code != 0` over the effective exit code. -/
def exit_failed (exit_code : Option Int) : Bool :=
  match exit_code with
  | some n => n != 0
  | none => false

/-- The run-row UPDATE of _handle_completion. -/
def completion_run_update (st : Db) (run : AgentRun) (failed : Bool)
    (summary : Option String) (exit1 : Option Int) (now : String) : Db :=
  db_set_run st run.id (fun r =>
    { r with status := if failed then "failed" else "completed", exit_code := exit1,
             result_summary := summary, completed_at := some now })

/-- The task move of _handle_completion: only a completed run moves its task
to review; a failed run merely logs agent_failed. -/
def completion_task_step (st1 : Db) (run : AgentRun) (failed : Bool)
    (summary : Option String) (now : String) : Except Err Db :=
  if failed then
    .ok (log_event st1 run.task_id "agent_failed" none summary)
  else
    match update_task_status st1 run.task_id "review" now with
    | .error e => .error e
    | .ok (st2, _) => .ok (log_event st2 run.task_id "agent_completed" none summary)

/-- The unconditional slot release at the end of _handle_completion. -/
def completion_release_step (st2 : Db) (run : AgentRun) (now : String) :
    Except Err Db :=
  match run.worktree_slot_id with
  | some sid =>
    match release_slot st2 sid now with
    | .error e => .error e
    | .ok (st3, _) => .ok st3
  | none => .ok st2

/-- core/agents.py AgentMonitor._handle_completion. The run row is updated
with the computed status, exit code, summary and completion time; only a
completed run moves its task to review (a failed run only logs an event);
the slot is released in either case. The Slack notification is best-effort
with no store effect and is elided. A missing slot row would make
release_slot raise, modelled by the error case. -/
def handle_completion (st : Db) (run : AgentRun) (exit_code : Option Int)
    (obs : OutputObs) (now : String := "") : Except Err Db :=
  let co := completion_outcome exit_code obs
  let failed := exit_failed co.2
  match completion_task_step (completion_run_update st run failed co.1 co.2 now)
      run failed co.1 now with
  | .error e => .error e
  | .ok st2 => completion_release_step st2 run now

/-- The branch of AgentMonitor._check_agents for a running run that has no
live handle in _active_processes (e.g. after an orchestrator restart, or any
terminal-mode run, which is never registered): the recorded pid is probed
with _is_pid_alive, and only a dead pid leads to reconciliation with an
unknown exit code. -/
def check_orphaned_run (st : Db) (os : OsView) (run : AgentRun)
    (obs : OutputObs) (now : String := "") : Except Err Db :=
  if (is_pid_alive os run.pid).1 then .ok st
  else handle_completion st run none obs now

/-! ## Invariants under scrutiny -/

/-- Per-slot occupancy coherence: status = occupied exactly when an
occupying task id is recorded. -/
def slot_ok (s : WorktreeSlot) : Prop :=
  s.status = "occupied" ↔ s.current_task_id ≠ none

instance (s : WorktreeSlot) : Decidable (slot_ok s) := by
  unfold slot_ok; infer_instance

/-- Every slot of the store satisfies slot_ok. -/
def slot_inv (st : Db) : Prop :=
  ∀ s ∈ st.slots, slot_ok s

instance (st : Db) : Decidable (slot_inv st) := by
  unfold slot_inv; infer_instance

/-- No task is recorded as the occupant of two distinct slot rows. -/
def at_most_one_slot_per_task (st : Db) : Prop :=
  st.slots.Pairwise (fun s1 s2 =>
    ¬(s1.current_task_id.isSome ∧ s1.current_task_id = s2.current_task_id))

instance (st : Db) : Decidable (at_most_one_slot_per_task st) := by
  unfold at_most_one_slot_per_task; infer_instance

/-- No two run rows for the same task are simultaneously running. -/
def at_most_one_running (st : Db) : Prop :=
  st.runs.Pairwise (fun r1 r2 =>
    ¬(r1.task_id = r2.task_id ∧ r1.status = "running" ∧ r2.status = "running"))

instance (st : Db) : Decidable (at_most_one_running st) := by
  unfold at_most_one_running; infer_instance

/-! ## Shared concrete fixtures for witnesses and counterexamples -/

/-- A registered project row used by the concrete fixtures. -/
def pr0 : Project := { id := "p", name := "P", repo_path := "/r" }

/-- A store holding only the project, the starting point of the fixtures. -/
def db0 : Db := { projects := [pr0] }

/-- Extracts the resulting store of a fallible operation that also returns a
row. -/
def db_of {α : Type} (r : Except Err (Db × α)) : Db :=
  match r with
  | .ok (st, _) => st
  | .error _ => default

/-- Extracts the resulting store of a fallible operation. -/
def ok_db (r : Except Err Db) : Option Db :=
  match r with
  | .ok st => some st
  | .error _ => none

/-- Whether a fallible operation succeeded. -/
def except_ok {ε α : Type} (r : Except ε α) : Bool :=
  match r with
  | .ok _ => true
  | .error _ => false

/-- The spec example's store: A (todo, no deps), B (todo, depends on A),
C (todo, no deps), all in project p. -/
def c1db : Db :=
  db_of (create_task (db_of (create_task (db_of (create_task db0 "A" "p"))
    "B" "p" "" none ["a"])) "C" "p")

/-- The example store after A is marked done. -/
def c1done : Db := db_of (update_task_status c1db "a" "done" "T")

/-- A store with a parent task and one subtask, both todo and without
dependencies. -/
def c1x_db : Db :=
  db_of (create_task (db_of (create_task db0 "Big" "p")) "Sub" "p" "" (some "big"))

/-- Task fixture occupying slots in the double-assignment counterexample. -/
def a2task : Task := { id := "t", project_id := "p", title := "T" }

def a2slot1 : WorktreeSlot := { id := 1, project_id := "p", path := "/w1", label := "w1" }

def a2slot2 : WorktreeSlot := { id := 2, project_id := "p", path := "/w2", label := "w2" }

/-- A project with one task and two available slots. -/
def a2db : Db :=
  { projects := [pr0], tasks := [a2task], slots := [a2slot1, a2slot2], nextSlotId := 3 }

/-- The store after assigning the same task to both available slots. -/
def c3st : Db :=
  db_of (assign_task_to_slot (db_of (assign_task_to_slot a2db "t" 1 "N")) "t" 2 "N")

def c5task : Task := { id := "t", project_id := "p", title := "T" }

def c5slot : WorktreeSlot :=
  { id := 1, project_id := "p", path := "/w1", label := "w1", branch := some "b1" }

/-- A project with one task and one free slot. -/
def c5db : Db :=
  { projects := [pr0], tasks := [c5task], slots := [c5slot], nextSlotId := 2 }

def c5occ : WorktreeSlot :=
  { id := 2, project_id := "p", path := "/w2", label := "w2", status := "occupied",
    current_task_id := some "u" }

/-- A project with one task and one occupied slot. -/
def c5db2 : Db :=
  { projects := [pr0], tasks := [c5task], slots := [c5occ], nextSlotId := 3 }

/-- The free slot after a successful assignment of task t. -/
def c5slot_occ : WorktreeSlot :=
  { c5slot with status := "occupied", current_task_id := some "t",
                updated_at := some "N" }

/-- The task after a successful assignment: slot path and branch copied. -/
def c5task_assigned : Task :=
  { c5task with worktree_path := some "/w1", branch_name := some "b1",
                updated_at := some "N" }

instance {ε α : Type} [DecidableEq ε] [DecidableEq α] : DecidableEq (Except ε α) :=
  fun x y =>
  match x, y with
  | .ok a, .ok b =>
    if h : a = b then .isTrue (h ▸ rfl) else .isFalse (fun hc => h (Except.ok.inj hc))
  | .error a, .error b =>
    if h : a = b then .isTrue (h ▸ rfl)
    else .isFalse (fun hc => h (Except.error.inj hc))
  | .ok _, .error _ => .isFalse (fun hc => Except.noConfusion hc)
  | .error _, .ok _ => .isFalse (fun hc => Except.noConfusion hc)

def c4run : AgentRun :=
  { id := 1, task_id := "t", worktree_slot_id := some 1, pid := some 5,
    instructions := "go", output_file := some "/o" }

def c4slot : WorktreeSlot :=
  { id := 1, project_id := "p", path := "/w", label := "w", status := "occupied",
    current_task_id := some "t" }

def c4task : Task := { id := "t", project_id := "p", title := "T", status := "in-progress" }

/-- A project with one in-progress task whose agent run is running. -/
def c4db : Db :=
  { projects := [pr0], tasks := [c4task], slots := [c4slot], runs := [c4run],
    nextSlotId := 2, nextRunId := 2 }

def c7run : AgentRun :=
  { id := 1, task_id := "t7", worktree_slot_id := some 1, pid := some 0 }

def c7slot : WorktreeSlot :=
  { id := 1, project_id := "p", path := "/w7", label := "w7", status := "occupied",
    current_task_id := some "t7" }

def c7task : Task :=
  { id := "t7", project_id := "p", title := "T7", status := "in-progress" }

/-- A running run recorded with the terminal-fallback sentinel pid 0. -/
def c7db : Db :=
  { projects := [pr0], tasks := [c7task], slots := [c7slot], runs := [c7run],
    nextSlotId := 2, nextRunId := 2 }

def c7run2 : AgentRun := { c7run with pid := some 7 }

/-- The same store with a real recorded pid. -/
def c7db2 : Db := { c7db with runs := [c7run2] }

def c7run_cancelled : AgentRun :=
  { c7run2 with status := "cancelled", completed_at := some "X" }

def c7slot_released : WorktreeSlot :=
  { c7slot with status := "available", current_task_id := none,
                updated_at := some "X" }

/-- Projects the signal count out of a cancel_agent result. -/
def get_signals (r : Except Err (Db × List Nat × Nat × Option AgentRun)) :
    Option Nat :=
  match r with
  | .ok (_, _, n, _) => some n
  | .error _ => none

def c2run : AgentRun :=
  { id := 1, task_id := "t2", worktree_slot_id := some 1, pid := some 5,
    output_file := some "/o" }

def c2slot : WorktreeSlot :=
  { id := 1, project_id := "p", path := "/w2", label := "w2", status := "occupied",
    current_task_id := some "t2" }

def c2task : Task :=
  { id := "t2", project_id := "p", title := "T2", status := "in-progress" }

/-- A finished run with its occupied slot and in-progress task. -/
def c2db : Db :=
  { projects := [pr0], tasks := [c2task], slots := [c2slot], runs := [c2run],
    nextSlotId := 2, nextRunId := 2 }

/-- The observation of an output file holding a structured result record. -/
def c2obs : OutputObs :=
  .readable "\x7b\"result\": \"done\"\x7d" (some (.dict (some "done")))

def c2run_done : AgentRun :=
  { c2run with status := "completed", exit_code := some 0,
               result_summary := some "done", completed_at := some "T" }

def c2task_review : Task := { c2task with status := "review", updated_at := some "T" }

def c2slot_released : WorktreeSlot :=
  { c2slot with status := "available", current_task_id := none,
                updated_at := some "T" }

def c6run_failed : AgentRun :=
  { c2run with status := "failed", exit_code := some 1,
               result_summary := some "(empty output)", completed_at := some "T" }

def c8task : Task := { id := "t8", project_id := "p", title := "T8" }

def c8slot : WorktreeSlot :=
  { id := 1, project_id := "p", path := "/w8", label := "w8", status := "occupied",
    current_task_id := some "t8" }

/-- A task assigned to a slot, ready to be launched. -/
def c8db : Db := { projects := [pr0], tasks := [c8task], slots := [c8slot], nextSlotId := 2 }

/-- The result of a terminal-mode launch whose pid hand-off file never
appeared. -/
def c8res : Except Err (Db × List Nat × AgentRun) :=
  launch_agent c8db [] "t8" "go" "/o8" "sonnet" (.terminal none) "N"

/-- A three-entry worktree listing: the main repo, one worktree, one bare. -/
def c9gws : List WorktreeInfo :=
  [{ path := "/r", branch := "main" }, { path := "/w1", branch := "b1" },
   { path := "/bare", branch := "", is_bare := true }]

/-- The store after a first discovery over c9gws. -/
def c9db1 : Db := db_of (discover_and_register_worktrees (fun p => p) db0 "p" c9gws "N")

def c9slot1 : WorktreeSlot :=
  { id := 1, project_id := "p", path := "/r", label := "r", branch := some "main",
    updated_at := some "N" }

def c9slot2 : WorktreeSlot :=
  { id := 2, project_id := "p", path := "/w1", label := "w1", branch := some "b1",
    updated_at := some "N" }

def c10task : Task := { id := "dangling", project_id := "p", title := "D" }

/-- A store holding a todo task with a dependency row whose target does not
exist (not reachable through create_task under enforced foreign keys, but
the readiness and blocked queries are total over such stores). -/
def c10db : Db :=
  { projects := [pr0], tasks := [c10task], deps := [("dangling", "ghost")] }

/-! ## Generic store lemmas -/

/-- A WHERE id = ? update commutes with a WHERE id = ? lookup when the
update preserves the key. -/
theorem find_map_if {α : Type} (p : α → Bool) (f : α → α)
    (hf : ∀ a, p (f a) = p a) (l : List α) :
    (l.map (fun a => if p a then f a else a)).find? p = (l.find? p).map f := by
  induction l with
  | nil => rfl
  | cons a l ih =>
    by_cases h : p a = true
    · simp [List.find?_cons, h, hf]
    · simp only [Bool.not_eq_true] at h
      simp [List.find?_cons, h, hf, ih]

theorem get_task_db_set_task (st : Db) (task_id : String) (f : Task → Task)
    (hf : ∀ t, (f t).id = t.id) :
    get_task (db_set_task st task_id f) task_id = (get_task st task_id).map f := by
  unfold get_task db_set_task
  exact find_map_if _ f (fun t => by simp [hf]) st.tasks

theorem get_slot_db_set_slot (st : Db) (slot_id : Nat) (f : WorktreeSlot → WorktreeSlot)
    (hf : ∀ s, (f s).id = s.id) :
    get_worktree_slot (db_set_slot st slot_id f) slot_id
      = (get_worktree_slot st slot_id).map f := by
  unfold get_worktree_slot db_set_slot
  exact find_map_if _ f (fun s => by simp [hf]) st.slots

theorem get_run_db_set_run (st : Db) (run_id : Nat) (f : AgentRun → AgentRun)
    (hf : ∀ r, (f r).id = r.id) :
    get_agent_run (db_set_run st run_id f) run_id = (get_agent_run st run_id).map f := by
  unfold get_agent_run db_set_run
  exact find_map_if _ f (fun r => by simp [hf]) st.runs

theorem update_task_status_ok_shape (st : Db) (task_id status now : String)
    (st' : Db) (r : Option Task)
    (h : update_task_status st task_id status now = .ok (st', r)) :
    st'.slots = st.slots ∧ st'.runs = st.runs ∧ st'.projects = st.projects ∧
    st'.deps = st.deps := by
  unfold update_task_status at h
  cases hg : get_task st task_id with
  | none => rw [hg] at h; simp at h; simp [h.1.symm]
  | some task =>
    rw [hg] at h
    by_cases ha : allowed_task_status status = true
    · simp [ha] at h
      rcases h with ⟨h1, -⟩
      simp [h1.symm, log_event, db_set_task]
    · simp [ha] at h

theorem slot_inv_db_set_slot (st : Db) (slot_id : Nat)
    (f : WorktreeSlot → WorktreeSlot) (hinv : slot_inv st)
    (hf : ∀ s, slot_ok (f s)) : slot_inv (db_set_slot st slot_id f) := by
  intro s hs
  simp only [db_set_slot, List.mem_map] at hs
  obtain ⟨a, ha, rfl⟩ := hs
  by_cases h : a.id == slot_id
  · simpa [h] using hf a
  · simpa [h] using hinv a ha

theorem log_event_slots (st : Db) (a b : String) (c d : Option String) :
    (log_event st a b c d).slots = st.slots := rfl

theorem db_set_task_slots (st : Db) (i : String) (f : Task → Task) :
    (db_set_task st i f).slots = st.slots := rfl

theorem db_set_run_slots (st : Db) (i : Nat) (f : AgentRun → AgentRun) :
    (db_set_run st i f).slots = st.slots := rfl

theorem log_event_runs (st : Db) (a b : String) (c d : Option String) :
    (log_event st a b c d).runs = st.runs := rfl

theorem db_set_task_runs (st : Db) (i : String) (f : Task → Task) :
    (db_set_task st i f).runs = st.runs := rfl

theorem db_set_slot_runs (st : Db) (i : Nat) (f : WorktreeSlot → WorktreeSlot) :
    (db_set_slot st i f).runs = st.runs := rfl

/-- Transporting slot_inv along a store whose slots table is unchanged. -/
theorem slot_inv_of_slots_eq (st st' : Db) (h : st'.slots = st.slots)
    (hinv : slot_inv st) : slot_inv st' := by
  intro s hs
  exact hinv s (h ▸ hs)

/-- Transporting at_most_one_running along an unchanged runs table. -/
theorem at_most_one_running_of_runs_eq (st st' : Db) (h : st'.runs = st.runs)
    (hinv : at_most_one_running st) : at_most_one_running st' := by
  unfold at_most_one_running at *
  rw [h]
  exact hinv

/-- A WHERE id = ? run update that can only retract the running status
preserves the one-running-run-per-task property. -/
theorem at_most_one_running_set_run (st : Db) (run_id : Nat)
    (f : AgentRun → AgentRun)
    (hid : ∀ r, (f r).task_id = r.task_id)
    (hrun : ∀ r, (f r).status = "running" → r.status = "running")
    (hinv : at_most_one_running st) : at_most_one_running (db_set_run st run_id f) := by
  unfold at_most_one_running db_set_run at *
  refine List.Pairwise.map _ ?_ hinv
  intro a b hab hcon
  apply hab
  obtain ⟨h1, h2, h3⟩ := hcon
  have gid : ∀ r : AgentRun, ((if r.id == run_id then f r else r)).task_id = r.task_id := by
    intro r; split
    · exact hid r
    · rfl
  have grun : ∀ r : AgentRun,
      ((if r.id == run_id then f r else r)).status = "running" → r.status = "running" := by
    intro r; split
    · exact hrun r
    · exact id
  refine ⟨?_, grun a h2, grun b h3⟩
  rw [← gid a, ← gid b, h1]

/-- Appending a running run for a task that has no running run preserves
the one-running-run-per-task property. -/
theorem at_most_one_running_append (st : Db) (run : AgentRun)
    (hinv : at_most_one_running st)
    (hnone : ∀ r ∈ st.runs, ¬(r.task_id = run.task_id ∧ r.status = "running")) :
    (st.runs ++ [run]).Pairwise (fun r1 r2 =>
      ¬(r1.task_id = r2.task_id ∧ r1.status = "running" ∧ r2.status = "running")) := by
  rw [List.pairwise_append]
  refine ⟨hinv, List.pairwise_singleton _ _, ?_⟩
  intro a ha b hb hcon
  rw [List.mem_singleton] at hb
  subst hb
  exact hnone a ha ⟨hcon.1, hcon.2.1⟩

/-! ## Operation characterizations -/

theorem release_ok_char (st : Db) (slot_id : Nat) (now : String) (st' : Db)
    (s : WorktreeSlot) (h : release_slot st slot_id now = .ok (st', s)) :
    ∃ slot, get_worktree_slot st slot_id = some slot ∧
      st' = db_set_slot st slot_id (fun x =>
        { x with status := "available", current_task_id := none,
                 updated_at := some now }) ∧
      s = { slot with status := "available", current_task_id := none,
                      updated_at := some now } := by
  unfold release_slot at h
  split at h
  · exact absurd h (by simp)
  · rename_i slot hs
    simp only [Except.ok.injEq, Prod.mk.injEq] at h
    exact ⟨slot, hs, h.1.symm, h.2.symm⟩

theorem assign_ok_char (st : Db) (task_id : String) (slot_id : Nat) (now : String)
    (st' : Db) (s : WorktreeSlot)
    (h : assign_task_to_slot st task_id slot_id now = .ok (st', s)) :
    ∃ slot t0, get_worktree_slot st slot_id = some slot ∧
      ¬ slot.status = "occupied" ∧ get_task st task_id = some t0 ∧
      s = { slot with status := "occupied", current_task_id := some task_id,
                      updated_at := some now } ∧
      st' = log_event (db_set_task (db_set_slot st slot_id (fun x =>
              { x with status := "occupied", current_task_id := some task_id,
                       updated_at := some now }))
            task_id (fun t =>
              { t with worktree_path := some slot.path, branch_name := slot.branch,
                       updated_at := some now }))
          task_id "assigned_to_slot" none (some slot.label) := by
  unfold assign_task_to_slot at h
  split at h
  · exact absurd h (by simp)
  · rename_i slot hs
    split at h
    · exact absurd h (by simp)
    · rename_i hocc
      split at h
      · exact absurd h (by simp)
      · rename_i t0 ht
        simp only [Except.ok.injEq, Prod.mk.injEq] at h
        exact ⟨slot, t0, hs, by simpa using hocc, ht, h.2.symm, h.1.symm⟩

/-! ## slot_inv preservation lemmas -/

theorem slot_inv_register (st : Db) (project_id path label : String)
    (branch : Option String) (now : String) (st' : Db) (s : WorktreeSlot)
    (hinv : slot_inv st)
    (h : register_worktree_slot st project_id path label branch now = .ok (st', s)) :
    slot_inv st' := by
  unfold register_worktree_slot at h
  by_cases h1 : st.slots.any (fun x => x.path == path)
  · rw [if_pos h1] at h; exact absurd h (by simp)
  · rw [if_neg h1] at h
    by_cases h2 : (get_project st project_id).isNone
    · rw [if_pos h2] at h; exact absurd h (by simp)
    · rw [if_neg h2] at h
      simp only [Except.ok.injEq, Prod.mk.injEq] at h
      rw [← h.1]
      intro x hx
      rcases List.mem_append.mp hx with hx | hx
      · exact hinv x hx
      · rw [List.mem_singleton] at hx
        subst hx
        simp [slot_ok]

theorem slot_inv_discover_loop (res : String → String) (project_id now : String)
    (E : List String) (gws : List WorktreeInfo) :
    ∀ (st st' : Db) (regs : List WorktreeSlot), slot_inv st →
      discover_loop res project_id now E st gws = .ok (st', regs) → slot_inv st' := by
  induction gws with
  | nil =>
    intro st st' regs hinv h
    unfold discover_loop at h
    simp only [Except.ok.injEq, Prod.mk.injEq] at h
    rw [← h.1]
    exact hinv
  | cons wt rest ih =>
    intro st st' regs hinv h
    unfold discover_loop at h
    by_cases hb : wt.is_bare
    · rw [if_pos hb] at h
      exact ih st st' regs hinv h
    · rw [if_neg hb] at h
      by_cases hc : E.contains (res wt.path)
      · rw [if_pos hc] at h
        exact ih st st' regs hinv h
      · rw [if_neg hc] at h
        simp only [] at h
        split at h
        · exact absurd h (by simp)
        · rename_i st1 slot hr
          split at h
          · exact absurd h (by simp)
          · rename_i st2 regs2 hl
            simp only [Except.ok.injEq, Prod.mk.injEq] at h
            obtain ⟨h1, -⟩ := h
            subst h1
            exact ih st1 st2 regs2
              (slot_inv_register st project_id _ _ _ now st1 slot hinv hr) hl

theorem slot_inv_discover (res : String → String) (st : Db) (project_id : String)
    (gws : List WorktreeInfo) (now : String) (st' : Db) (regs : List WorktreeSlot)
    (hinv : slot_inv st)
    (h : discover_and_register_worktrees res st project_id gws now = .ok (st', regs)) :
    slot_inv st' := by
  unfold discover_and_register_worktrees at h
  cases hp : get_project st project_id with
  | none => rw [hp] at h; exact absurd h (by simp)
  | some pr =>
    rw [hp] at h
    exact slot_inv_discover_loop res project_id now _ gws st st' regs hinv h

theorem slot_inv_assign (st : Db) (task_id : String) (slot_id : Nat) (now : String)
    (st' : Db) (s : WorktreeSlot) (hinv : slot_inv st)
    (h : assign_task_to_slot st task_id slot_id now = .ok (st', s)) :
    slot_inv st' := by
  obtain ⟨slot, t0, -, -, -, -, hst⟩ := assign_ok_char st task_id slot_id now st' s h
  subst hst
  refine slot_inv_of_slots_eq _ _ rfl ?_
  exact slot_inv_db_set_slot st slot_id _ hinv (fun x => by simp [slot_ok])

theorem slot_inv_release (st : Db) (slot_id : Nat) (now : String)
    (st' : Db) (s : WorktreeSlot) (hinv : slot_inv st)
    (h : release_slot st slot_id now = .ok (st', s)) : slot_inv st' := by
  obtain ⟨slot, -, hst, -⟩ := release_ok_char st slot_id now st' s h
  subst hst
  exact slot_inv_db_set_slot st slot_id _ hinv (fun x => by simp [slot_ok])

theorem slot_inv_cancel (st : Db) (registry : List Nat) (task_id now : String)
    (st' : Db) (reg : List Nat) (n : Nat) (or : Option AgentRun)
    (hinv : slot_inv st)
    (h : cancel_agent st registry task_id now = .ok (st', reg, n, or)) :
    slot_inv st' := by
  unfold cancel_agent at h
  split at h
  · simp only [Except.ok.injEq, Prod.mk.injEq] at h
    rw [← h.1]
    exact hinv
  · rename_i run hl
    simp only [] at h
    have hinv2 : slot_inv (log_event (db_set_run st run.id (fun r =>
        { r with status := "cancelled", completed_at := some now }))
        task_id "agent_cancelled" (some ("PID " ++ pid_str run.pid)) none) :=
      slot_inv_of_slots_eq _ _ rfl hinv
    split at h
    · rename_i sid hsid
      split at h
      · exact absurd h (by simp)
      · rename_i st3 s3 hr
        simp only [Except.ok.injEq, Prod.mk.injEq] at h
        rw [← h.1]
        exact slot_inv_release _ sid now st3 s3 hinv2 hr
    · simp only [Except.ok.injEq, Prod.mk.injEq] at h
      rw [← h.1]
      exact hinv2

theorem completion_task_step_char (st1 : Db) (run : AgentRun) (failed : Bool)
    (summary : Option String) (now : String) (stm : Db)
    (h : completion_task_step st1 run failed summary now = .ok stm) :
    (failed = true ∧ stm = log_event st1 run.task_id "agent_failed" none summary) ∨
    (failed = false ∧ ∃ st2 x,
      update_task_status st1 run.task_id "review" now = .ok (st2, x) ∧
      stm = log_event st2 run.task_id "agent_completed" none summary) := by
  unfold completion_task_step at h
  split at h
  · rename_i hfail
    simp only [Except.ok.injEq] at h
    exact Or.inl ⟨hfail, h.symm⟩
  · rename_i hfail
    split at h
    · exact absurd h (by simp)
    · rename_i st2 x hupd
      simp only [Except.ok.injEq] at h
      exact Or.inr ⟨by simpa using hfail, st2, x, hupd, h.symm⟩

theorem completion_release_step_char (st2 : Db) (run : AgentRun) (now : String)
    (st' : Db) (h : completion_release_step st2 run now = .ok st') :
    (run.worktree_slot_id = none ∧ st' = st2) ∨
    (∃ sid s3, run.worktree_slot_id = some sid ∧
      release_slot st2 sid now = .ok (st', s3)) := by
  unfold completion_release_step at h
  split at h
  · rename_i sid hsid
    split at h
    · exact absurd h (by simp)
    · rename_i st3 s3 hr
      simp only [Except.ok.injEq] at h
      exact Or.inr ⟨sid, s3, hsid, h ▸ hr⟩
  · rename_i hsid
    simp only [Except.ok.injEq] at h
    exact Or.inl ⟨hsid, h.symm⟩

/-- A successful reconciliation decomposes into the task step applied to the
updated run row, followed by the slot release. -/
theorem handle_completion_ok_char (st : Db) (run : AgentRun)
    (exit_code : Option Int) (obs : OutputObs) (now : String) (st' : Db)
    (h : handle_completion st run exit_code obs now = .ok st') :
    ∃ stm : Db,
      completion_task_step
        (completion_run_update st run (exit_failed (completion_outcome exit_code obs).2)
          (completion_outcome exit_code obs).1 (completion_outcome exit_code obs).2 now)
        run (exit_failed (completion_outcome exit_code obs).2)
        (completion_outcome exit_code obs).1 now = .ok stm ∧
      completion_release_step stm run now = .ok st' := by
  unfold handle_completion at h
  simp only [] at h
  split at h
  · exact absurd h (by simp)
  · rename_i stm hstep
    exact ⟨stm, hstep, h⟩

theorem slot_inv_handle_completion (st : Db) (run : AgentRun)
    (exit_code : Option Int) (obs : OutputObs) (now : String) (st' : Db)
    (hinv : slot_inv st)
    (h : handle_completion st run exit_code obs now = .ok st') : slot_inv st' := by
  obtain ⟨stm, hstep, hrel⟩ := handle_completion_ok_char st run exit_code obs now st' h
  have hinv1 : slot_inv stm := by
    rcases completion_task_step_char _ _ _ _ _ _ hstep with ⟨-, hstm⟩ | ⟨-, st2, x, hupd, hstm⟩
    · subst hstm
      exact slot_inv_of_slots_eq _ _ rfl hinv
    · subst hstm
      obtain ⟨hsl, -, -, -⟩ := update_task_status_ok_shape _ _ _ _ _ _ hupd
      exact slot_inv_of_slots_eq _ _ hsl hinv
  rcases completion_release_step_char _ _ _ _ hrel with ⟨-, hst⟩ | ⟨sid, s3, -, hr⟩
  · subst hst
    exact hinv1
  · exact slot_inv_release stm sid now st' s3 hinv1 hr

/-! ## C1 — readiness -/

theorem dep_done_iff (st : Db) (d : String) :
    dep_done st d = true ↔ ∃ dep, get_task st d = some dep ∧ dep.status = "done" := by
  unfold dep_done
  cases hg : get_task st d with
  | none => simp
  | some dep => simp

theorem ready_filter_eq (st : Db) (i : String) :
    (if (task_deps st i).isEmpty then true
     else (task_deps st i).all (fun d => dep_done st d))
    = (task_deps st i).all (fun d => dep_done st d) := by
  cases h : (task_deps st i) <;> simp [h]

theorem mem_ready_iff (st : Db) (project_id : String) (t : Task) :
    t ∈ get_ready_tasks st project_id ↔
      (t ∈ st.tasks ∧ t.project_id = project_id ∧ t.status = "todo" ∧
       t.parent_task_id = none ∧
       ∀ d ∈ task_deps st t.id,
         ∃ dep, get_task st d = some dep ∧ dep.status = "done") := by
  unfold get_ready_tasks list_tasks
  rw [List.mem_filter, List.mem_insertionSort, List.mem_filter]
  simp only [ready_filter_eq, List.all_eq_true, dep_done_iff, Bool.and_eq_true,
    beq_iff_eq, Bool.or_eq_true]
  constructor
  · rintro ⟨⟨hmem, ⟨h1, h2⟩, h3⟩, h4⟩
    refine ⟨hmem, h1, ?_, ?_, h4⟩
    · rcases h2 with h2 | h2
      · exact absurd h2 (by decide)
      · exact h2
    · exact h3
  · rintro ⟨hmem, h1, h2, h3, h4⟩
    exact ⟨⟨hmem, ⟨h1, Or.inr h2⟩, h3⟩, h4⟩

/-- C1 (amended): the readiness query ranges over top-level tasks only
(list_tasks adds parent_task_id IS NULL): a task is returned iff it belongs
to the project, has no parent, is todo, and each of its dependency ids
resolves to an existing task whose status is done. On top-level tasks the
spec's example behaves as stated: ready = {A, C}, and {B, C} after A is
done. -/
theorem c1_ready_tasks_amended :
    (∀ (st : Db) (project_id : String) (t : Task),
      t ∈ get_ready_tasks st project_id ↔
        (t ∈ st.tasks ∧ t.project_id = project_id ∧ t.status = "todo" ∧
         t.parent_task_id = none ∧
         ∀ d ∈ task_deps st t.id,
           ∃ dep, get_task st d = some dep ∧ dep.status = "done")) ∧
    (get_ready_tasks c1db "p").map (fun t => t.id) = ["a", "c"] ∧
    (get_ready_tasks c1done "p").map (fun t => t.id) = ["b", "c"] :=
  ⟨fun st project_id t => mem_ready_iff st project_id t, by decide, by decide⟩

/-- C1 witness: the theorem applied to the spec's own example store. -/
theorem c1_ready_tasks_witness :
    (get_ready_tasks c1db "p").map (fun t => t.id) = ["a", "c"] :=
  c1_ready_tasks_amended.2.1

/-- C1 counterexample: the subtask sub is todo with an (empty, hence fully
done) dependency set, yet the readiness query does not return it, refuting
the claim for non-top-level tasks. -/
theorem c1_subtask_not_ready :
    (∃ t ∈ c1x_db.tasks, t.id = "sub" ∧ t.status = "todo" ∧ t.parent_task_id ≠ none
      ∧ task_deps c1x_db "sub" = []) ∧
    ¬ ∃ t ∈ get_ready_tasks c1x_db "p", t.id = "sub" := by decide

/-! ## C5 — assigning a task to a slot -/

/-- C5: assigning to an occupied slot fails naming the occupant (before any
write, so the store is unchanged); assigning a missing task to a free slot
fails; on success the slot is marked occupied with the task recorded as
occupant, and the slot's path and branch are copied onto the task. -/
theorem c5_assign_task_to_slot (st : Db) (task_id : String) (slot_id : Nat)
    (now : String) :
    (∀ slot, get_worktree_slot st slot_id = some slot → slot.status = "occupied" →
       assign_task_to_slot st task_id slot_id now
         = .error (.slotOccupied slot.label slot.current_task_id)) ∧
    (∀ slot, get_worktree_slot st slot_id = some slot → slot.status ≠ "occupied" →
       get_task st task_id = none →
       assign_task_to_slot st task_id slot_id now = .error (.taskNotFound task_id)) ∧
    (∀ slot t0, get_worktree_slot st slot_id = some slot → slot.status ≠ "occupied" →
       get_task st task_id = some t0 →
       ∃ st', assign_task_to_slot st task_id slot_id now
           = .ok (st', { slot with status := "occupied",
                                   current_task_id := some task_id,
                                   updated_at := some now }) ∧
         get_worktree_slot st' slot_id
           = some { slot with status := "occupied",
                              current_task_id := some task_id,
                              updated_at := some now } ∧
         get_task st' task_id
           = some { t0 with worktree_path := some slot.path,
                            branch_name := slot.branch,
                            updated_at := some now }) := by
  refine ⟨?_, ?_, ?_⟩
  · intro slot hs hocc
    unfold assign_task_to_slot
    rw [hs]
    simp [hocc]
  · intro slot hs hocc ht
    unfold assign_task_to_slot
    rw [hs]
    simp [hocc, ht]
  · intro slot t0 hs hocc ht
    unfold assign_task_to_slot
    rw [hs]
    simp only [hocc, beq_iff_eq, if_neg, ht]
    refine ⟨_, rfl, ?_, ?_⟩
    · show get_worktree_slot (db_set_slot st slot_id _) slot_id = _
      rw [get_slot_db_set_slot st slot_id
        (fun s => { s with status := "occupied", current_task_id := some task_id,
                           updated_at := some now })
        (fun s => rfl), hs]
      rfl
    · show get_task (db_set_task (db_set_slot st slot_id _) task_id _) task_id = _
      rw [get_task_db_set_task _ task_id
        (fun t => { t with worktree_path := some slot.path, branch_name := slot.branch,
                           updated_at := some now })
        (fun t => rfl)]
      show (get_task st task_id).map _ = _
      rw [ht]
      rfl

/-! ## C3 — slot occupancy invariants -/

/-- C3 (amended): after each slot-mutating operation (register,
discover-and-register, assign, release, cancel, monitor completion
handling), every slot satisfies status = occupied iff its occupying task id
is non-null. The claim's second half — at most one slot occupying a given
task — is not enforced by the code; see the double-assignment
counterexample. -/
theorem c3_slot_occupancy_amended (st : Db) (hinv : slot_inv st) :
    (∀ project_id path label branch now st' s,
        register_worktree_slot st project_id path label branch now = .ok (st', s) →
        slot_inv st') ∧
    (∀ res project_id gws now st' regs,
        discover_and_register_worktrees res st project_id gws now = .ok (st', regs) →
        slot_inv st') ∧
    (∀ task_id slot_id now st' s,
        assign_task_to_slot st task_id slot_id now = .ok (st', s) → slot_inv st') ∧
    (∀ slot_id now st' s,
        release_slot st slot_id now = .ok (st', s) → slot_inv st') ∧
    (∀ registry task_id now st' reg n r,
        cancel_agent st registry task_id now = .ok (st', reg, n, r) → slot_inv st') ∧
    (∀ run exit_code obs now st',
        handle_completion st run exit_code obs now = .ok st' → slot_inv st') := by
  refine ⟨?_, ?_, ?_, ?_, ?_, ?_⟩
  · intro project_id path label branch now st' s h
    exact slot_inv_register st project_id path label branch now st' s hinv h
  · intro res project_id gws now st' regs h
    exact slot_inv_discover res st project_id gws now st' regs hinv h
  · intro task_id slot_id now st' s h
    exact slot_inv_assign st task_id slot_id now st' s hinv h
  · intro slot_id now st' s h
    exact slot_inv_release st slot_id now st' s hinv h
  · intro registry task_id now st' reg n r h
    exact slot_inv_cancel st registry task_id now st' reg n r hinv h
  · intro run exit_code obs now st' h
    exact slot_inv_handle_completion st run exit_code obs now st' hinv h

/-- C3 witness: the assign conjunct applied to the concrete one-slot store. -/
theorem c3_slot_occupancy_witness :
    slot_inv (db_of (assign_task_to_slot c5db "t" 1 "N")) :=
  (c3_slot_occupancy_amended c5db (by decide)).2.2.1 "t" 1 "N"
    (db_of (assign_task_to_slot c5db "t" 1 "N")) c5slot_occ (by decide)

/-- C3 counterexample: assigning task t to slot 1 and then to slot 2 both
succeed, leaving two slots occupied by t — the at-most-one-slot-per-task
half of the claim fails on the code. -/
theorem c3_double_assign_counterexample :
    except_ok (assign_task_to_slot (db_of (assign_task_to_slot a2db "t" 1 "N"))
      "t" 2 "N") = true ∧
    (c3st.slots.filter (fun s => s.current_task_id == some "t")).length = 2 ∧
    ¬ at_most_one_slot_per_task c3st := by decide

/-- C5 witness: the theorem applied to a store with an occupied slot (the
error names occupant u) and to a store with a free slot (the success case
copies path and branch onto the task). -/
theorem c5_assign_task_to_slot_witness :
    assign_task_to_slot c5db2 "t" 2 "N" = .error (.slotOccupied "w2" (some "u")) ∧
    (∃ st', assign_task_to_slot c5db "t" 1 "N" = .ok (st', c5slot_occ) ∧
      get_worktree_slot st' 1 = some c5slot_occ ∧
      get_task st' "t" = some c5task_assigned) := by
  refine ⟨?_, ?_⟩
  · exact (c5_assign_task_to_slot c5db2 "t" 2 "N").1 c5occ (by decide) (by decide)
  · exact (c5_assign_task_to_slot c5db "t" 1 "N").2.2 c5slot c5task
      (by decide) (by decide) (by decide)

/-! ## C4 — at most one running run per task -/

theorem at_most_one_running_launch (st : Db) (registry : List Nat)
    (task_id instructions output_file model : String) (mode : LaunchMode)
    (now : String) (st' : Db) (reg : List Nat) (run : AgentRun)
    (hinv : at_most_one_running st)
    (h : launch_agent st registry task_id instructions output_file model mode now
      = .ok (st', reg, run)) : at_most_one_running st' := by
  unfold launch_agent at h
  split at h
  · exact absurd h (by simp)
  rename_i task htask
  split at h
  · exact absurd h (by simp)
  rename_i slot hslot
  split at h
  · exact absurd h (by simp)
  rename_i hnone
  simp only [] at h
  split at h
  · exact absurd h (by simp)
  rename_i st1 x hupd
  simp only [Except.ok.injEq, Prod.mk.injEq] at h
  obtain ⟨hst, -, -⟩ := h
  have hruns : st1.runs = st.runs := by
    split at hupd
    · exact (update_task_status_ok_shape st task_id "in-progress" now st1 x hupd).2.1
    · simp only [Except.ok.injEq, Prod.mk.injEq] at hupd
      rw [← hupd.1]
  subst hst
  show List.Pairwise _ (st1.runs ++ [_])
  refine at_most_one_running_append ⟨st1.projects, st1.tasks, st1.deps, st1.slots,
    st1.runs, st1.events, st1.nextSlotId, st1.nextRunId⟩ _ ?_ ?_
  · exact at_most_one_running_of_runs_eq st _ hruns hinv
  · intro r hr hcon
    rw [hruns] at hr
    have := List.find?_eq_none.mp hnone r hr
    simp only [Bool.and_eq_true, beq_iff_eq, not_and] at this
    exact this hcon.1 hcon.2

theorem launch_agent_already_running (st : Db) (registry : List Nat)
    (task_id instructions output_file model : String) (mode : LaunchMode)
    (now : String) (task : Task) (slot : WorktreeSlot) (r : AgentRun)
    (htask : get_task st task_id = some task)
    (hslot : st.slots.find? (fun s => s.current_task_id == some task_id) = some slot)
    (hfind : st.runs.find? (fun x => x.task_id == task_id && x.status == "running")
      = some r) :
    launch_agent st registry task_id instructions output_file model mode now
      = .error (.alreadyRunning task_id r.pid) := by
  unfold launch_agent
  rw [htask, hslot, hfind]

theorem delegate_task_already_running (st : Db) (registry : List Nat)
    (task_id instructions output_file : String) (project_id : Option String)
    (model : String) (slot_label : Option String) (mode : LaunchMode)
    (now : String) (task : Task) (r : AgentRun)
    (htask : get_task st task_id = some task)
    (hfind : st.runs.find? (fun x => x.task_id == task_id && x.status == "running")
      = some r) :
    delegate_task st registry task_id instructions output_file project_id model
      slot_label mode now = .error (.alreadyRunning task_id r.pid) := by
  unfold delegate_task
  rw [htask, hfind]

theorem at_most_one_running_delegate (st : Db) (registry : List Nat)
    (task_id instructions output_file : String) (project_id : Option String)
    (model : String) (slot_label : Option String) (mode : LaunchMode)
    (now : String) (st' : Db) (reg : List Nat) (run : AgentRun)
    (hinv : at_most_one_running st)
    (h : delegate_task st registry task_id instructions output_file project_id model
      slot_label mode now = .ok (st', reg, run)) : at_most_one_running st' := by
  unfold delegate_task at h
  split at h
  · exact absurd h (by simp)
  rename_i task htask
  simp only [] at h
  split at h
  · exact absurd h (by simp)
  rename_i hnone
  split at h
  · exact absurd h (by simp)
  rename_i slot hsel
  split at h
  · exact absurd h (by simp)
  rename_i st1 s1 hassign
  have h1 : at_most_one_running st1 := by
    obtain ⟨slot0, t0, -, -, -, -, hst⟩ :=
      assign_ok_char st task_id slot.id now st1 s1 hassign
    subst hst
    exact at_most_one_running_of_runs_eq st _ rfl hinv
  exact at_most_one_running_launch st1 registry task_id instructions output_file
    model mode now st' reg run h1 h

theorem at_most_one_running_cancel (st : Db) (registry : List Nat)
    (task_id now : String) (st' : Db) (reg : List Nat) (n : Nat)
    (or : Option AgentRun) (hinv : at_most_one_running st)
    (h : cancel_agent st registry task_id now = .ok (st', reg, n, or)) :
    at_most_one_running st' := by
  unfold cancel_agent at h
  split at h
  · simp only [Except.ok.injEq, Prod.mk.injEq] at h
    rw [← h.1]
    exact hinv
  · rename_i run hl
    simp only [] at h
    have h2 : at_most_one_running (log_event (db_set_run st run.id (fun r =>
        { r with status := "cancelled", completed_at := some now }))
        task_id "agent_cancelled" (some ("PID " ++ pid_str run.pid)) none) := by
      refine at_most_one_running_of_runs_eq _ _ rfl ?_
      refine at_most_one_running_set_run st run.id _ (fun r => rfl) ?_ hinv
      intro r hr
      simp at hr
    split at h
    · rename_i sid hsid
      split at h
      · exact absurd h (by simp)
      · rename_i st3 s3 hr
        simp only [Except.ok.injEq, Prod.mk.injEq] at h
        rw [← h.1]
        obtain ⟨slot0, -, hst3, -⟩ := release_ok_char _ sid now st3 s3 hr
        subst hst3
        exact at_most_one_running_of_runs_eq _ _ rfl h2
    · simp only [Except.ok.injEq, Prod.mk.injEq] at h
      rw [← h.1]
      exact h2

theorem at_most_one_running_handle (st : Db) (run : AgentRun)
    (exit_code : Option Int) (obs : OutputObs) (now : String) (st' : Db)
    (hinv : at_most_one_running st)
    (h : handle_completion st run exit_code obs now = .ok st') :
    at_most_one_running st' := by
  obtain ⟨stm, hstep, hrel⟩ := handle_completion_ok_char st run exit_code obs now st' h
  have h1 : at_most_one_running (completion_run_update st run
      (exit_failed (completion_outcome exit_code obs).2)
      (completion_outcome exit_code obs).1 (completion_outcome exit_code obs).2 now) := by
    refine at_most_one_running_set_run st run.id _ (fun r => rfl) ?_ hinv
    intro r hr
    by_cases hb : exit_failed (completion_outcome exit_code obs).2 = true
    · simp only [hb, if_true] at hr
      simp at hr
    · simp only [hb, Bool.false_eq_true, if_false] at hr
      simp at hr
  have h2 : at_most_one_running stm := by
    rcases completion_task_step_char _ _ _ _ _ _ hstep with ⟨-, hstm⟩ | ⟨-, st2, x, hupd, hstm⟩
    · subst hstm
      exact at_most_one_running_of_runs_eq _ _ rfl h1
    · subst hstm
      obtain ⟨-, hruns, -, -⟩ := update_task_status_ok_shape _ _ _ _ _ _ hupd
      exact at_most_one_running_of_runs_eq _ _ hruns h1
  rcases completion_release_step_char _ _ _ _ hrel with ⟨-, hst⟩ | ⟨sid, s3, -, hr⟩
  · subst hst
    exact h2
  · obtain ⟨slot0, -, hst3, -⟩ := release_ok_char _ sid now st' s3 hr
    subst hst3
    exact at_most_one_running_of_runs_eq _ _ rfl h2

/-- C4: a second launch (direct or via delegation) for a task with a running
run fails with an error carrying the existing run's process id, before any
write (in this embedding an error returns no store, so the original run is
untouched); and launch, delegation, cancellation and completion handling all
preserve the at-most-one-running-run-per-task invariant. -/
theorem c4_single_running_run (st : Db) (hinv : at_most_one_running st) :
    (∀ registry task_id instructions output_file model mode now task slot r,
        get_task st task_id = some task →
        st.slots.find? (fun s => s.current_task_id == some task_id) = some slot →
        st.runs.find? (fun x => x.task_id == task_id && x.status == "running")
          = some r →
        launch_agent st registry task_id instructions output_file model mode now
          = .error (.alreadyRunning task_id r.pid)) ∧
    (∀ registry task_id instructions output_file project_id model slot_label mode
        now task r,
        get_task st task_id = some task →
        st.runs.find? (fun x => x.task_id == task_id && x.status == "running")
          = some r →
        delegate_task st registry task_id instructions output_file project_id model
          slot_label mode now = .error (.alreadyRunning task_id r.pid)) ∧
    (∀ registry task_id instructions output_file model mode now st' reg run,
        launch_agent st registry task_id instructions output_file model mode now
          = .ok (st', reg, run) → at_most_one_running st') ∧
    (∀ registry task_id instructions output_file project_id model slot_label mode
        now st' reg run,
        delegate_task st registry task_id instructions output_file project_id model
          slot_label mode now = .ok (st', reg, run) → at_most_one_running st') ∧
    (∀ registry task_id now st' reg n or,
        cancel_agent st registry task_id now = .ok (st', reg, n, or) →
        at_most_one_running st') ∧
    (∀ run exit_code obs now st',
        handle_completion st run exit_code obs now = .ok st' →
        at_most_one_running st') := by
  refine ⟨?_, ?_, ?_, ?_, ?_, ?_⟩
  · intro registry task_id instructions output_file model mode now task slot r h1 h2 h3
    exact launch_agent_already_running st registry task_id instructions output_file
      model mode now task slot r h1 h2 h3
  · intro registry task_id instructions output_file project_id model slot_label mode
      now task r h1 h2
    exact delegate_task_already_running st registry task_id instructions output_file
      project_id model slot_label mode now task r h1 h2
  · intro registry task_id instructions output_file model mode now st' reg run h
    exact at_most_one_running_launch st registry task_id instructions output_file
      model mode now st' reg run hinv h
  · intro registry task_id instructions output_file project_id model slot_label mode
      now st' reg run h
    exact at_most_one_running_delegate st registry task_id instructions output_file
      project_id model slot_label mode now st' reg run hinv h
  · intro registry task_id now st' reg n or h
    exact at_most_one_running_cancel st registry task_id now st' reg n or hinv h
  · intro run exit_code obs now st' h
    exact at_most_one_running_handle st run exit_code obs now st' hinv h

/-- C4 witness: with task t already running under PID 5, a second launch for
t fails naming PID 5. -/
theorem c4_single_running_run_witness :
    launch_agent c4db [] "t" "go2" "/o2" "sonnet" (.background 9) "N"
      = .error (.alreadyRunning "t" (some 5)) :=
  (c4_single_running_run c4db (by decide)).1 [] "t" "go2" "/o2" "sonnet"
    (.background 9) "N" c4task c4slot c4run (by decide) (by decide) (by decide)

/-! ## C7 — cancellation -/

theorem cancel_run_found (st : Db) (registry : List Nat) (task_id now : String)
    (run : AgentRun) (sid : Nat) (slot : WorktreeSlot)
    (hl : (st.runs.filter (fun r =>
      r.task_id == task_id && r.status == "running")).getLast? = some run)
    (hid : get_agent_run st run.id = some run)
    (hsid : run.worktree_slot_id = some sid)
    (hslot : get_worktree_slot st sid = some slot) :
    ∃ st', cancel_agent st registry task_id now
        = .ok (st',
            (if (match run.pid with | some p => p != 0 | none => false)
             then registry.erase (run.pid.getD 0) else registry),
            (if (match run.pid with | some p => p != 0 | none => false)
             then 1 else 0),
            get_agent_run st' run.id) ∧
      get_agent_run st' run.id
        = some { run with status := "cancelled", completed_at := some now } ∧
      get_worktree_slot st' sid
        = some { slot with status := "available", current_task_id := none,
                           updated_at := some now } := by
  have hslot2 : get_worktree_slot (log_event (db_set_run st run.id (fun r =>
      { r with status := "cancelled", completed_at := some now }))
      task_id "agent_cancelled" (some ("PID " ++ pid_str run.pid)) none) sid
      = some slot := hslot
  refine ⟨db_set_slot (log_event (db_set_run st run.id (fun r =>
      { r with status := "cancelled", completed_at := some now }))
      task_id "agent_cancelled" (some ("PID " ++ pid_str run.pid)) none) sid
      (fun x => { x with status := "available", current_task_id := none,
                         updated_at := some now }), ?_, ?_, ?_⟩
  · simp only [cancel_agent, hl, hsid, release_slot, hslot2]
  · show (get_agent_run (db_set_run st run.id _) run.id) = _
    rw [get_run_db_set_run st run.id
      (fun r => { r with status := "cancelled", completed_at := some now })
      (fun r => rfl), hid]
    rfl
  · rw [get_slot_db_set_slot _ sid
      (fun x => { x with status := "available", current_task_id := none,
                         updated_at := some now })
      (fun s => rfl), hslot2]
    rfl

/-- C7 (amended): cancel with no running run returns none and changes
nothing; when the latest running run exists and records a nonzero pid,
cancel sends exactly one termination signal, pops the registry handle, marks
the run cancelled with a completion timestamp and releases its slot; but a
run recorded with a null pid or the terminal-fallback sentinel pid 0 is
cancelled (run marked, slot released) without any signal being sent, because
Python `if run.pid:` is falsy for both. -/
theorem c7_cancel_agent_amended (st : Db) (registry : List Nat)
    (task_id now : String) :
    ((st.runs.filter (fun r =>
        r.task_id == task_id && r.status == "running")).getLast? = none →
      cancel_agent st registry task_id now = .ok (st, registry, 0, none)) ∧
    (∀ run p sid slot,
      (st.runs.filter (fun r =>
        r.task_id == task_id && r.status == "running")).getLast? = some run →
      get_agent_run st run.id = some run →
      run.pid = some p → p ≠ 0 →
      run.worktree_slot_id = some sid →
      get_worktree_slot st sid = some slot →
      ∃ st', cancel_agent st registry task_id now
          = .ok (st', registry.erase p, 1, get_agent_run st' run.id) ∧
        get_agent_run st' run.id
          = some { run with status := "cancelled", completed_at := some now } ∧
        get_worktree_slot st' sid
          = some { slot with status := "available", current_task_id := none,
                             updated_at := some now }) ∧
    (∀ run sid slot,
      (st.runs.filter (fun r =>
        r.task_id == task_id && r.status == "running")).getLast? = some run →
      get_agent_run st run.id = some run →
      (run.pid = some 0 ∨ run.pid = none) →
      run.worktree_slot_id = some sid →
      get_worktree_slot st sid = some slot →
      ∃ st', cancel_agent st registry task_id now
          = .ok (st', registry, 0, get_agent_run st' run.id) ∧
        get_agent_run st' run.id
          = some { run with status := "cancelled", completed_at := some now } ∧
        get_worktree_slot st' sid
          = some { slot with status := "available", current_task_id := none,
                             updated_at := some now }) := by
  refine ⟨?_, ?_, ?_⟩
  · intro hl
    simp only [cancel_agent, hl]
  · intro run p sid slot hl hid hp hne hsid hslot
    obtain ⟨st', h1, h2, h3⟩ :=
      cancel_run_found st registry task_id now run sid slot hl hid hsid hslot
    refine ⟨st', ?_, h2, h3⟩
    rw [hp] at h1
    simpa [hne] using h1
  · intro run sid slot hl hid hp0 hsid hslot
    obtain ⟨st', h1, h2, h3⟩ :=
      cancel_run_found st registry task_id now run sid slot hl hid hsid hslot
    refine ⟨st', ?_, h2, h3⟩
    rcases hp0 with hp | hp
    all_goals rw [hp] at h1
    all_goals simpa using h1

/-- C7 witness: cancelling the running run with pid 7 sends one signal, pops
the handle, marks the run cancelled and releases the slot. -/
theorem c7_cancel_agent_witness :
    ∃ st', cancel_agent c7db2 [7, 9] "t7" "X"
        = .ok (st', [9], 1, get_agent_run st' 1) ∧
      get_agent_run st' 1 = some c7run_cancelled ∧
      get_worktree_slot st' 1 = some c7slot_released := by
  obtain ⟨st', h1, h2, h3⟩ :=
    (c7_cancel_agent_amended c7db2 [7, 9] "t7" "X").2.1 c7run2 7 1 c7slot
      (by decide) (by decide) (by decide) (by decide) (by decide) (by decide)
  refine ⟨st', ?_, ?_, ?_⟩
  · simpa [c7run2, c7run] using h1
  · simpa [c7run_cancelled, c7run2, c7run] using h2
  · simpa [c7slot_released, c7slot] using h3

/-- C7 counterexample: t7 has a running run (recorded with the sentinel
pid 0, as a terminal launch whose pid file never appeared records it), yet
cancel sends zero termination signals, not exactly one as claimed. -/
theorem c7_zero_pid_counterexample :
    c7db.runs.any (fun r => r.task_id == "t7" && r.status == "running") = true ∧
    ¬ get_signals (cancel_agent c7db [] "t7" "X") = some 1 ∧
    get_signals (cancel_agent c7db [] "t7" "X") = some 0 := by decide

/-! ## C2 and C6 — reconciliation of finished runs -/

theorem exit_failed_iff (e : Option Int) :
    exit_failed e = true ↔ ∃ n, e = some n ∧ n ≠ 0 := by
  cases e with
  | none => simp [exit_failed]
  | some n => simp [exit_failed]

theorem update_task_status_review (st : Db) (tid now : String) (tk : Task)
    (ht : get_task st tid = some tk) :
    update_task_status st tid "review" now
      = .ok (log_event (db_set_task st tid (fun t =>
          { t with status := "review", updated_at := some now }))
          tid "status_changed" (some tk.status) (some "review"),
        get_task (log_event (db_set_task st tid (fun t =>
          { t with status := "review", updated_at := some now }))
          tid "status_changed" (some tk.status) (some "review")) tid) := by
  have h1 : allowed_task_status "review" = true := by decide
  have h2 : (("review" : String) == "done") = false := by decide
  simp only [update_task_status, ht, h1, h2, Bool.false_and, not_true,
    Bool.false_eq_true, if_false, ite_false, Bool.not_true]

theorem handle_completion_spec (st : Db) (run : AgentRun) (exit_code : Option Int)
    (obs : OutputObs) (now : String) (sid : Nat) (slot : WorktreeSlot) (tk : Task)
    (hrun : get_agent_run st run.id = some run)
    (hsid : run.worktree_slot_id = some sid)
    (hslot : get_worktree_slot st sid = some slot)
    (htask : get_task st run.task_id = some tk) :
    ∃ st', handle_completion st run exit_code obs now = .ok st' ∧
      get_agent_run st' run.id = some { run with
        status := if exit_failed (completion_outcome exit_code obs).2
                  then "failed" else "completed",
        exit_code := (completion_outcome exit_code obs).2,
        result_summary := (completion_outcome exit_code obs).1,
        completed_at := some now } ∧
      get_task st' run.task_id
        = some (if exit_failed (completion_outcome exit_code obs).2 then tk
                else { tk with status := "review", updated_at := some now }) ∧
      get_worktree_slot st' sid = some { slot with
        status := "available", current_task_id := none, updated_at := some now } := by
  by_cases hf : exit_failed (completion_outcome exit_code obs).2 = true
  · refine ⟨db_set_slot (log_event (completion_run_update st run true
        (completion_outcome exit_code obs).1 (completion_outcome exit_code obs).2 now)
        run.task_id "agent_failed" none (completion_outcome exit_code obs).1) sid
        (fun x => { x with status := "available", current_task_id := none,
                           updated_at := some now }), ?_, ?_, ?_, ?_⟩
    · have hslot3 : get_worktree_slot (log_event (completion_run_update st run true
          (completion_outcome exit_code obs).1 (completion_outcome exit_code obs).2 now)
          run.task_id "agent_failed" none (completion_outcome exit_code obs).1) sid
          = some slot := hslot
      simp only [handle_completion, completion_task_step, hf, if_true,
        completion_release_step, hsid, release_slot, hslot3]
    · show get_agent_run (db_set_run st run.id _) run.id = _
      rw [get_run_db_set_run st run.id
        (fun r => { r with
          status := if true then "failed" else "completed",
          exit_code := (completion_outcome exit_code obs).2,
          result_summary := (completion_outcome exit_code obs).1,
          completed_at := some now })
        (fun r => rfl), hrun]
      simp [hf]
    · show get_task st run.task_id = _
      rw [htask]
      simp [hf]
    · have hslot3 : get_worktree_slot (log_event (completion_run_update st run true
          (completion_outcome exit_code obs).1 (completion_outcome exit_code obs).2 now)
          run.task_id "agent_failed" none (completion_outcome exit_code obs).1) sid
          = some slot := hslot
      rw [get_slot_db_set_slot _ sid
        (fun x => { x with status := "available", current_task_id := none,
                           updated_at := some now })
        (fun s => rfl), hslot3]
      rfl
  · have hf2 : exit_failed (completion_outcome exit_code obs).2 = false := by
      simpa using hf
    have ht1 : get_task (completion_run_update st run false
        (completion_outcome exit_code obs).1 (completion_outcome exit_code obs).2 now)
        run.task_id = some tk := htask
    have hreview := update_task_status_review (completion_run_update st run false
      (completion_outcome exit_code obs).1 (completion_outcome exit_code obs).2 now)
      run.task_id now tk ht1
    refine ⟨db_set_slot (log_event (log_event (db_set_task (completion_run_update st
        run false (completion_outcome exit_code obs).1
        (completion_outcome exit_code obs).2 now) run.task_id (fun t =>
          { t with status := "review", updated_at := some now }))
        run.task_id "status_changed" (some tk.status) (some "review"))
        run.task_id "agent_completed" none (completion_outcome exit_code obs).1) sid
        (fun x => { x with status := "available", current_task_id := none,
                           updated_at := some now }), ?_, ?_, ?_, ?_⟩
    · have hslot4 : get_worktree_slot (log_event (log_event (db_set_task
          (completion_run_update st run false (completion_outcome exit_code obs).1
          (completion_outcome exit_code obs).2 now) run.task_id (fun t =>
            { t with status := "review", updated_at := some now }))
          run.task_id "status_changed" (some tk.status) (some "review"))
          run.task_id "agent_completed" none (completion_outcome exit_code obs).1) sid
          = some slot := hslot
      simp only [handle_completion, completion_task_step, hf2, Bool.false_eq_true,
        if_false, hreview, completion_release_step, hsid, release_slot, hslot4]
    · show get_agent_run (db_set_run st run.id _) run.id = _
      rw [get_run_db_set_run st run.id
        (fun r => { r with
          status := if false then "failed" else "completed",
          exit_code := (completion_outcome exit_code obs).2,
          result_summary := (completion_outcome exit_code obs).1,
          completed_at := some now })
        (fun r => rfl), hrun]
      simp [hf2]
    · show get_task (db_set_task _ run.task_id _) run.task_id = _
      rw [get_task_db_set_task _ run.task_id
        (fun t => { t with status := "review", updated_at := some now })
        (fun t => rfl)]
      show (get_task st run.task_id).map _ = _
      rw [htask]
      simp [hf2]
    · have hslot4 : get_worktree_slot (log_event (log_event (db_set_task
          (completion_run_update st run false (completion_outcome exit_code obs).1
          (completion_outcome exit_code obs).2 now) run.task_id (fun t =>
            { t with status := "review", updated_at := some now }))
          run.task_id "status_changed" (some tk.status) (some "review"))
          run.task_id "agent_completed" none (completion_outcome exit_code obs).1) sid
          = some slot := hslot
      rw [get_slot_db_set_slot _ sid
        (fun x => { x with status := "available", current_task_id := none,
                           updated_at := some now })
        (fun s => rfl), hslot4]
      rfl

theorem exit_failed_one : exit_failed (some 1) = true := by decide

theorem exit_failed_zero : exit_failed (some 0) = false := by decide

/-- C2: a finished run (slot and task present) is marked failed exactly when
its effective exit code — authoritative, or heuristically inferred from the
output — is a nonzero integer, completed otherwise; the owning task is moved
to review iff the run completed (on failed it is left untouched, only the
agent_failed event is logged); and the slot is released to available in both
cases. -/
theorem c2_reconciliation (st : Db) (run : AgentRun) (exit_code : Option Int)
    (obs : OutputObs) (now : String) (sid : Nat) (slot : WorktreeSlot) (tk : Task)
    (hrun : get_agent_run st run.id = some run)
    (hsid : run.worktree_slot_id = some sid)
    (hslot : get_worktree_slot st sid = some slot)
    (htask : get_task st run.task_id = some tk) :
    (exit_failed (completion_outcome exit_code obs).2 = true ↔
      ∃ n, (completion_outcome exit_code obs).2 = some n ∧ n ≠ 0) ∧
    ∃ st', handle_completion st run exit_code obs now = .ok st' ∧
      get_agent_run st' run.id = some { run with
        status := if exit_failed (completion_outcome exit_code obs).2
                  then "failed" else "completed",
        exit_code := (completion_outcome exit_code obs).2,
        result_summary := (completion_outcome exit_code obs).1,
        completed_at := some now } ∧
      get_task st' run.task_id
        = some (if exit_failed (completion_outcome exit_code obs).2 then tk
                else { tk with status := "review", updated_at := some now }) ∧
      get_worktree_slot st' sid = some { slot with
        status := "available", current_task_id := none, updated_at := some now } :=
  ⟨exit_failed_iff _,
   handle_completion_spec st run exit_code obs now sid slot tk hrun hsid hslot htask⟩

/-- C2 witness: the spec's example — structured result, exit code 0 — ends
completed with the result stored as summary, the task in review, and the
slot released. -/
theorem c2_reconciliation_witness :
    ∃ st', handle_completion c2db c2run (some 0) c2obs "T" = .ok st' ∧
      get_agent_run st' 1 = some c2run_done ∧
      get_task st' "t2" = some c2task_review ∧
      get_worktree_slot st' 1 = some c2slot_released := by
  obtain ⟨st', h1, h2, h3, h4⟩ := (c2_reconciliation c2db c2run (some 0) c2obs "T" 1
    c2slot c2task (by decide) (by decide) (by decide) (by decide)).2
  exact ⟨st', h1, h2, h3, h4⟩

/-- C6 (amended): with no authoritative exit code, empty output degrades to a
failed run with the synthetic "(empty output)" summary; an unreadable output
to a failed run with an error-reading summary; malformed output to a
truncated raw-text summary with failure inferred exactly from a literal
error marker; but a missing output file (or NULL output path) yields a
completed run with no summary — the file-exists guard skips the whole
degradation block. In the failed cases the task's status is untouched. -/
theorem c6_output_degradation_amended (st : Db) (run : AgentRun) (now : String)
    (sid : Nat) (slot : WorktreeSlot) (tk : Task)
    (hrun : get_agent_run st run.id = some run)
    (hsid : run.worktree_slot_id = some sid)
    (hslot : get_worktree_slot st sid = some slot)
    (htask : get_task st run.task_id = some tk) :
    (∀ content parsed, (py_strip content.data).isEmpty = true →
      ∃ st', handle_completion st run none (.readable content parsed) now
          = .ok st' ∧
        get_agent_run st' run.id = some { run with
          status := "failed", exit_code := some 1,
          result_summary := some "(empty output)", completed_at := some now } ∧
        get_task st' run.task_id = some tk) ∧
    (∀ msg, ∃ st', handle_completion st run none (.unreadable msg) now = .ok st' ∧
        get_agent_run st' run.id = some { run with
          status := "failed", exit_code := some 1,
          result_summary := some ("Error reading output: " ++ msg),
          completed_at := some now } ∧
        get_task st' run.task_id = some tk) ∧
    (∀ content, (py_strip content.data).isEmpty = false →
      ∃ st', handle_completion st run none (.readable content none) now
          = .ok st' ∧
        get_agent_run st' run.id = some { run with
          status := if has_error_marker content then "failed" else "completed",
          exit_code := some (if has_error_marker content then 1 else 0),
          result_summary := some (py_take 500 content), completed_at := some now }) ∧
    (∃ st', handle_completion st run none .missing now = .ok st' ∧
      get_agent_run st' run.id = some { run with
        status := "completed", exit_code := none, result_summary := none,
        completed_at := some now }) := by
  refine ⟨?_, ?_, ?_, ?_⟩
  · intro content parsed hempty
    have hco : completion_outcome none (.readable content parsed)
        = (some "(empty output)", some 1) := by
      simp [completion_outcome, hempty, or_default]
    obtain ⟨st', h1, h2, h3, -⟩ := handle_completion_spec st run none
      (.readable content parsed) now sid slot tk hrun hsid hslot htask
    rw [hco] at h2 h3
    refine ⟨st', h1, ?_, ?_⟩
    · simpa [exit_failed_one] using h2
    · simpa [exit_failed_one] using h3
  · intro msg
    obtain ⟨st', h1, h2, h3, -⟩ := handle_completion_spec st run none
      (.unreadable msg) now sid slot tk hrun hsid hslot htask
    refine ⟨st', h1, ?_, ?_⟩
    · simpa [completion_outcome, or_default, exit_failed_one] using h2
    · simpa [completion_outcome, or_default, exit_failed_one] using h3
  · intro content hne
    have hco : completion_outcome none (.readable content none)
        = (some (py_take 500 content),
           some (if has_error_marker content then 1 else 0)) := by
      simp [completion_outcome, hne, or_default]
    obtain ⟨st', h1, h2, -, -⟩ := handle_completion_spec st run none
      (.readable content none) now sid slot tk hrun hsid hslot htask
    rw [hco] at h2
    refine ⟨st', h1, ?_⟩
    by_cases hm : has_error_marker content = true
    · simpa [hm, exit_failed_one] using h2
    · simp only [Bool.not_eq_true] at hm
      simpa [hm, exit_failed_zero] using h2
  · obtain ⟨st', h1, h2, -, -⟩ := handle_completion_spec st run none
      .missing now sid slot tk hrun hsid hslot htask
    exact ⟨st', h1, h2⟩

/-- C6 witness: empty output on the concrete store — failed with the
synthetic summary, task untouched. -/
theorem c6_output_degradation_witness :
    ∃ st', handle_completion c2db c2run none (.readable "  " none) "T" = .ok st' ∧
      get_agent_run st' 1 = some c6run_failed ∧
      get_task st' "t2" = some c2task := by
  obtain ⟨st', h1, h2, h3⟩ := (c6_output_degradation_amended c2db c2run "T" 1 c2slot
    c2task (by decide) (by decide) (by decide) (by decide)).1 "  " none (by decide)
  exact ⟨st', h1, h2, h3⟩

/-- C6 counterexample: a finished run with no exit code whose output file is
missing is reconciled as completed with a null summary, not as a failure
with a synthetic summary. -/
theorem c6_missing_output_counterexample :
    ((ok_db (handle_completion c2db c2run none .missing "T")).bind
      (fun st' => (get_agent_run st' 1).map (fun r => r.status))) = some "completed" ∧
    ¬ ((ok_db (handle_completion c2db c2run none .missing "T")).bind
      (fun st' => (get_agent_run st' 1).map (fun r => r.status))) = some "failed" ∧
    ((ok_db (handle_completion c2db c2run none .missing "T")).bind
      (fun st' => (get_agent_run st' 1).map (fun r => r.result_summary)))
      = some none := by
  decide

/-! ## C8 — the terminal-mode sentinel pid -/

theorem launch_terminal_sentinel (st : Db) (registry : List Nat)
    (task_id instructions output_file model now : String) (st' : Db)
    (reg : List Nat) (run : AgentRun)
    (h : launch_agent st registry task_id instructions output_file model
      (.terminal none) now = .ok (st', reg, run)) : run.pid = some 0 := by
  unfold launch_agent at h
  split at h
  · exact absurd h (by simp)
  rename_i task htask
  split at h
  · exact absurd h (by simp)
  rename_i slot hslot
  split at h
  · exact absurd h (by simp)
  rename_i hnone
  simp only [] at h
  split at h
  · exact absurd h (by simp)
  rename_i st1 x hupd
  simp only [Except.ok.injEq, Prod.mk.injEq] at h
  obtain ⟨-, -, hrun⟩ := h
  rw [← hrun]
  rfl

/-- C8 (amended): a terminal-mode launch whose pid hand-off file never
appears records the bare sentinel pid 0 for the run; a later liveness check
by the monitor DOES probe that sentinel with one os.kill(0, 0) signal — it
is not skipped — but because pid 0 addresses the orchestrator's own process
group the probe always reports the run alive, so an orphaned sentinel run is
never reconciled (left running forever). Only a null pid is treated as dead
without a probe. -/
theorem c8_sentinel_probed_amended :
    (∀ st registry task_id instructions output_file model now st' reg run,
      launch_agent st registry task_id instructions output_file model
        (.terminal none) now = .ok (st', reg, run) → run.pid = some 0) ∧
    (∀ os : OsView, is_pid_alive os (some 0) = (true, 1)) ∧
    (∀ (os : OsView) (st : Db) (run : AgentRun) (obs : OutputObs) (now : String),
      run.pid = some 0 → check_orphaned_run st os run obs now = .ok st) ∧
    (∀ os : OsView, is_pid_alive os none = (false, 0)) := by
  refine ⟨?_, ?_, ?_, ?_⟩
  · intro st registry task_id instructions output_file model now st' reg run h
    exact launch_terminal_sentinel st registry task_id instructions output_file
      model now st' reg run h
  · intro os
    rfl
  · intro os st run obs now hp
    unfold check_orphaned_run
    rw [hp]
    rfl
  · intro os
    rfl

/-- C8 witness: the concrete terminal launch records pid 0, and the monitor
probe on pid 0 returns alive with one signal issued. -/
theorem c8_sentinel_probed_witness :
    (∃ st' reg run, c8res = .ok (st', reg, run) ∧ run.pid = some 0) ∧
    is_pid_alive { alive := [], restricted := [] } (some 0) = (true, 1) := by
  constructor
  · refine ⟨_, _, _, rfl, ?_⟩
    exact c8_sentinel_probed_amended.1 c8db [] "t8" "go" "/o8" "sonnet" "N" _ _ _ rfl
  · exact c8_sentinel_probed_amended.2.1 { alive := [], restricted := [] }

/-- C8 counterexample: the liveness check issues one probe signal for the
sentinel pid 0 (the claim requires it not to be probed at all) and the probe
reports the process alive. -/
theorem c8_sentinel_probe_counterexample :
    (is_pid_alive { alive := [], restricted := [] } (some 0)).2 = 1 ∧
    ¬ (is_pid_alive { alive := [], restricted := [] } (some 0)).2 = 0 ∧
    (is_pid_alive { alive := [], restricted := [] } (some 0)).1 = true := by
  decide

/-! ## C9 — discovery idempotence -/

theorem register_ok_char (st : Db) (project_id path label : String)
    (branch : Option String) (now : String) (st' : Db) (s : WorktreeSlot)
    (h : register_worktree_slot st project_id path label branch now = .ok (st', s)) :
    s = { id := st.nextSlotId, project_id := project_id, path := path,
          label := label, branch := branch, status := "available",
          current_task_id := none, updated_at := some now } ∧
    st' = { st with slots := st.slots ++ [s], nextSlotId := st.nextSlotId + 1 } := by
  unfold register_worktree_slot at h
  split at h
  · exact absurd h (by simp)
  split at h
  · exact absurd h (by simp)
  simp only [Except.ok.injEq, Prod.mk.injEq] at h
  obtain ⟨h1, h2⟩ := h
  subst h2
  exact ⟨rfl, h1.symm⟩

theorem discover_loop_frame (res : String → String) (project_id now : String)
    (E : List String) (gws : List WorktreeInfo) :
    ∀ st st' regs, discover_loop res project_id now E st gws = .ok (st', regs) →
      st'.projects = st.projects ∧
      (∀ s ∈ st.slots, s ∈ st'.slots) ∧
      (∀ wt ∈ gws, wt.is_bare = false →
        E.contains (res wt.path) = true ∨
        ∃ s ∈ st'.slots, s.project_id = project_id ∧ s.path = res wt.path) := by
  induction gws with
  | nil =>
    intro st st' regs h
    unfold discover_loop at h
    simp only [Except.ok.injEq, Prod.mk.injEq] at h
    obtain ⟨h1, -⟩ := h
    subst h1
    exact ⟨rfl, fun s hs => hs, by simp⟩
  | cons wt rest ih =>
    intro st st' regs h
    unfold discover_loop at h
    by_cases hb : wt.is_bare
    · rw [if_pos hb] at h
      obtain ⟨hp, hsub, hcov⟩ := ih st st' regs h
      refine ⟨hp, hsub, ?_⟩
      intro wt2 hwt2 hnb
      rcases List.mem_cons.mp hwt2 with rfl | hwt2
      · rw [hb] at hnb
        exact absurd hnb (by simp)
      · exact hcov wt2 hwt2 hnb
    · rw [if_neg hb] at h
      by_cases hc : E.contains (res wt.path)
      · rw [if_pos hc] at h
        obtain ⟨hp, hsub, hcov⟩ := ih st st' regs h
        refine ⟨hp, hsub, ?_⟩
        intro wt2 hwt2 hnb
        rcases List.mem_cons.mp hwt2 with rfl | hwt2
        · exact Or.inl hc
        · exact hcov wt2 hwt2 hnb
      · rw [if_neg hc] at h
        simp only [] at h
        split at h
        · exact absurd h (by simp)
        rename_i st1 slot hr
        split at h
        · exact absurd h (by simp)
        rename_i st2 regs2 hl
        simp only [Except.ok.injEq, Prod.mk.injEq] at h
        obtain ⟨h1, -⟩ := h
        subst h1
        obtain ⟨hp, hsub, hcov⟩ := ih st1 st2 regs2 hl
        obtain ⟨hs, hst1⟩ := register_ok_char st project_id (res wt.path) _
          (some wt.branch) now st1 slot hr
        refine ⟨by rw [hp, hst1], ?_, ?_⟩
        · intro s2 hs2
          apply hsub
          rw [hst1]
          exact List.mem_append_left _ hs2
        · intro wt2 hwt2 hnb
          rcases List.mem_cons.mp hwt2 with rfl | hwt2
          · right
            refine ⟨slot, ?_, by simp [hs], by simp [hs]⟩
            apply hsub
            rw [hst1]
            exact List.mem_append_right _ (List.mem_singleton_self _)
          · exact hcov wt2 hwt2 hnb

theorem discover_loop_skips (res : String → String) (project_id now : String)
    (E : List String) :
    ∀ gws : List WorktreeInfo,
      (∀ wt ∈ gws, wt.is_bare = false → E.contains (res wt.path) = true) →
      ∀ st, discover_loop res project_id now E st gws = .ok (st, []) := by
  intro gws
  induction gws with
  | nil => intro hall st; rfl
  | cons wt rest ih =>
    intro hall st
    unfold discover_loop
    by_cases hb : wt.is_bare
    · rw [if_pos hb]
      exact ih (fun w hw hnb => hall w (List.mem_cons_of_mem _ hw) hnb) st
    · rw [if_neg hb]
      have hc := hall wt (List.mem_cons_self _ _) (by simpa using hb)
      rw [if_pos hc]
      exact ih (fun w hw hnb => hall w (List.mem_cons_of_mem _ hw) hnb) st

theorem mem_resolved_slot_paths (res : String → String) (st : Db)
    (project_id : String) (s : WorktreeSlot) (hs : s ∈ st.slots)
    (hproj : s.project_id = project_id) :
    (resolved_slot_paths res st project_id).contains (res s.path) = true := by
  unfold resolved_slot_paths
  have hm : res s.path ∈ (st.slots.filter
      (fun x => x.project_id == project_id)).map (fun x => res x.path) :=
    List.mem_map.mpr ⟨s, List.mem_filter.mpr ⟨hs, by simp [hproj]⟩, rfl⟩
  exact List.elem_iff.mpr hm

theorem resolved_slot_paths_mem (res : String → String) (st : Db)
    (project_id p : String)
    (h : (resolved_slot_paths res st project_id).contains p = true) :
    ∃ s ∈ st.slots, s.project_id = project_id ∧ res s.path = p := by
  unfold resolved_slot_paths at h
  have hm := List.elem_iff.mp h
  obtain ⟨s, hsf, hsp⟩ := List.mem_map.mp hm
  obtain ⟨hss, hpr⟩ := List.mem_filter.mp hsf
  exact ⟨s, hss, by simpa using hpr, hsp⟩

/-- C9: slot discovery is idempotent. If the version-control backend reports
the same worktree list to two consecutive discovery calls and filesystem
path resolution is idempotent, then a first successful call is followed by a
second call that succeeds, registers zero slots, and leaves the store
exactly as it was. -/
theorem c9_discovery_idempotent (res : String → String)
    (hres : ∀ p, res (res p) = res p)
    (st st1 : Db) (project_id : String) (gws : List WorktreeInfo)
    (now now2 : String) (regs : List WorktreeSlot)
    (h1 : discover_and_register_worktrees res st project_id gws now = .ok (st1, regs)) :
    discover_and_register_worktrees res st1 project_id gws now2 = .ok (st1, []) := by
  unfold discover_and_register_worktrees at h1 ⊢
  split at h1
  · exact absurd h1 (by simp)
  rename_i pr hpr
  obtain ⟨hp, hsub, hcov⟩ := discover_loop_frame res project_id now _ gws st st1 regs h1
  have hpr1 : get_project st1 project_id = some pr := by
    unfold get_project at hpr ⊢
    rw [hp]
    exact hpr
  rw [hpr1]
  refine discover_loop_skips res project_id now2 _ gws ?_ st1
  intro wt hwt hnb
  rcases hcov wt hwt hnb with hc | ⟨s, hss, hsp, hspath⟩
  · obtain ⟨s, hss0, hsp0, hspath0⟩ := resolved_slot_paths_mem res st project_id _ hc
    have : res s.path = res wt.path := hspath0
    rw [← this]
    exact mem_resolved_slot_paths res st1 project_id s (hsub s hss0) hsp0
  · have : res s.path = res wt.path := by rw [hspath, hres]
    rw [← this]
    exact mem_resolved_slot_paths res st1 project_id s hss hsp

/-- C9 witness: a concrete first discovery registers the two non-bare
worktrees; the second discovery over the same listing registers nothing and
leaves the store unchanged. -/
theorem c9_discovery_idempotent_witness :
    discover_and_register_worktrees (fun p => p) c9db1 "p" c9gws "N2"
      = .ok (c9db1, []) :=
  c9_discovery_idempotent (fun p => p) (fun p => rfl) db0 c9db1 "p" c9gws "N" "N2"
    [c9slot1, c9slot2] (by decide)

/-! ## C10 — dangling dependencies -/

theorem dep_blocking_iff (st : Db) (d : String) :
    dep_blocking st d = true ↔
      ∃ dep, get_task st d = some dep ∧ dep.status ≠ "done" := by
  unfold dep_blocking
  cases hg : get_task st d with
  | none => simp
  | some dep => simp

theorem mem_blocked_iff (st : Db) (project_id : String) (t : Task) :
    t ∈ get_blocked_tasks st project_id ↔
      (t ∈ st.tasks ∧ t.project_id = project_id ∧ t.status = "todo" ∧
       t.parent_task_id = none ∧
       ∃ d ∈ task_deps st t.id,
         ∃ dep, get_task st d = some dep ∧ dep.status ≠ "done") := by
  unfold get_blocked_tasks list_tasks
  rw [List.mem_filter, List.mem_insertionSort, List.mem_filter]
  simp only [List.any_eq_true, dep_blocking_iff, Bool.and_eq_true,
    beq_iff_eq, Bool.or_eq_true]
  constructor
  · rintro ⟨⟨hmem, ⟨h1, h2⟩, h3⟩, h4⟩
    refine ⟨hmem, h1, ?_, h3, h4⟩
    rcases h2 with h2 | h2
    · exact absurd h2 (by decide)
    · exact h2
  · rintro ⟨hmem, h1, h2, h3, h4⟩
    exact ⟨⟨hmem, ⟨h1, Or.inr h2⟩, h3⟩, h4⟩

theorem insert_deps_dangling (st : Db) (task_id d : String)
    (hpk : st.deps.any (fun p => p.1 == task_id && p.2 == d) = false)
    (hfk : get_task st d = none) :
    insert_deps st task_id [d]
      = .error (.fkViolation "task_dependencies.depends_on_task_id") := by
  simp only [insert_deps, hpk, hfk, Option.isNone_none, Bool.false_eq_true,
    if_false, if_true]

/-- C10 (amended): create_task itself performs no dependency validation, but
on every connection the program opens, the schema foreign key on
task_dependencies.depends_on_task_id is enforced (PRAGMA foreign_keys=ON in
engine.init_db), so creation with a dependency id matching no stored task
fails with a constraint error instead of succeeding. On a store that
nevertheless holds a todo task with a dangling dependency, the task is
excluded from the ready query (a dangling id never counts as done), and a
task all of whose dependencies are dangling is also excluded from the
blocked query (missing dependency rows are skipped), so it appears in
neither. -/
theorem c10_dangling_dependency_amended :
    (∀ (st : Db) (title project_id d now : String) (priority : Int),
      (get_project st project_id).isSome = true →
      get_task st d = none →
      d ≠ unique_id st (slugify title) →
      st.deps.all (fun x => !(x.1 == unique_id st (slugify title))) = true →
      create_task st title project_id "" none [d] none priority now
        = .error (.fkViolation "task_dependencies.depends_on_task_id")) ∧
    (∀ (st : Db) (project_id : String) (t : Task),
      (∃ d ∈ task_deps st t.id, get_task st d = none) →
      t ∉ get_ready_tasks st project_id) ∧
    (∀ (st : Db) (project_id : String) (t : Task),
      (∀ d ∈ task_deps st t.id, get_task st d = none) →
      t ∉ get_blocked_tasks st project_id) := by
  refine ⟨?_, ?_, ?_⟩
  · intro st title project_id d now priority hproj hd1 hne hfresh
    have h1 : (get_project st project_id).isNone = false := by
      cases hh : get_project st project_id
      · rw [hh] at hproj; simp at hproj
      · rfl
    have hpk : st.deps.any (fun p =>
        p.1 == unique_id st (slugify title) && p.2 == d) = false := by
      rw [List.any_eq_false]
      intro p hp
      have h2 := List.all_eq_true.mp hfresh p hp
      simp only [Bool.not_eq_true'] at h2
      simp [h2]
    have hfind : get_task { st with tasks := st.tasks ++
        [{ id := unique_id st (slugify title), project_id := project_id,
           title := title, description := "", status := "todo",
           priority := max 0 (min 6 priority), parent_task_id := none,
           pr_url := none, updated_at := some now }] } d = none := by
      unfold get_task at hd1 ⊢
      rw [List.find?_eq_none] at hd1 ⊢
      intro x hx
      rcases List.mem_append.mp hx with hx | hx
      · exact hd1 x hx
      · rw [List.mem_singleton] at hx
        subst hx
        simp only [beq_iff_eq]
        exact fun hc => hne hc.symm
    have hins := insert_deps_dangling { st with tasks := st.tasks ++
        [{ id := unique_id st (slugify title), project_id := project_id,
           title := title, description := "", status := "todo",
           priority := max 0 (min 6 priority), parent_task_id := none,
           pr_url := none, updated_at := some now }] }
      (unique_id st (slugify title)) d hpk hfind
    simp only [create_task, h1, Bool.false_eq_true, if_false, hins]
  · rintro st project_id t ⟨d, hd, hnone⟩ hmem
    obtain ⟨-, -, -, -, hall⟩ := (mem_ready_iff st project_id t).mp hmem
    obtain ⟨dep, hdep, -⟩ := hall d hd
    rw [hnone] at hdep
    exact Option.noConfusion hdep
  · intro st project_id t hall hmem
    obtain ⟨-, -, -, -, d, hd, dep, hdep, -⟩ :=
      (mem_blocked_iff st project_id t).mp hmem
    rw [hall d hd] at hdep
    exact Option.noConfusion hdep

/-- C10 witness: creating task B with the dangling dependency ghost fails
with the foreign-key error, and the stored task with a dangling dependency
appears in neither the ready nor the blocked query. -/
theorem c10_dangling_dependency_witness :
    create_task db0 "B" "p" "" none ["ghost"] none 3 "N"
      = .error (.fkViolation "task_dependencies.depends_on_task_id") ∧
    c10task ∉ get_ready_tasks c10db "p" ∧
    c10task ∉ get_blocked_tasks c10db "p" :=
  ⟨c10_dangling_dependency_amended.1 db0 "B" "p" "ghost" "N" 3
      (by decide) (by decide) (by decide) (by decide),
   c10_dangling_dependency_amended.2.1 c10db "p" c10task
      ⟨"ghost", by decide, by decide⟩,
   c10_dangling_dependency_amended.2.2 c10db "p" c10task (by decide)⟩

/-- C10 counterexample: create_task with a dangling dependency does not
succeed — the dependency INSERT violates the enforced foreign key and the
call raises. -/
theorem c10_create_task_fails_counterexample :
    except_ok (create_task db0 "B" "p" "" none ["ghost"] none 3 "N") = false := by
  decide

end WorkOrchestrator
